import Mathlib

/-!
# Storage-extension attach protocol (src/main/capi/attach-c.cpp)

A shallow embedding of the C API bridge through which a storage extension is
registered and later dispatched at ATTACH time, together with theorems about it.

Conventions of the embedding

* A C handle is either null or the address of the one live object the call is
  about (`Handle`).  Every function that receives a handle also receives the
  current state of that object and returns its state after the call.
* A nullable C pointer argument (`const char *`, a function pointer, `void *`)
  is an `Option`; `none` is `nullptr`.
* An output parameter (`T *out_value`) is a `Handle` telling whether the
  location exists; what the function stores through it is returned in the
  `out` field of the result (`none`: nothing was stored).
* A C++ exception leaving a function is an `Except.error`.  Whether the statement
  inside a `try` block throws is an argument of the function (`alloc_fails`,
  `assign_throws`) or the `none` of a cast.
* A `std::string` and the C string read from its `c_str()` are the same text.
* Invocations of user-supplied function pointers are recorded: destructor
  invocations as a list of `DeleteCall`, a callback invocation as a flag.
* Types of the runtime that are declared outside this translation unit
  (`Value`, `AttachInfo`, `AttachOptions`, `DBConfig`, the default cast) are
  parameters or are modelled from the specification, as said at each of them.
-/

namespace AttachC

/-! ## Collaborator types -/

/-- A C handle or output pointer: null, or the address of the live object. -/
inductive Handle where
  | null
  | live
  deriving DecidableEq, Repr

/-- Modelled from the spec: a key-to-value option mapping (the declaration of the
map type is outside this file).  `find` is the lookup used by `GetOptionValue`;
`none` stands for `end()`. -/
def OptionMap.find {V : Type} : List (String × V) → String → Option V
  | [], _ => none
  | (k, v) :: rest, key => if k = key then some v else OptionMap.find rest key

/-- Modelled from the spec: the attach-info record, "containing at least a path
field and a key-to-value option mapping". -/
structure AttachInfo (V : Type) where
  path : String
  options : List (String × V)

/-- Modelled from the spec: the options record, a "call-site key-to-value mapping". -/
structure AttachOptions (V : Type) where
  options : List (String × V)

/-- Modelled from the spec: the runtime's default type coercion followed by the
typed getter, one function per target type (`XValue::Get(value->DefaultCastAs(X))`).
`none` means that the expression throws.  `V` is the runtime's `Value`, `D` stands
for `double`. -/
structure DefaultCast (V D : Type) where
  VARCHAR : V → Option String
  BOOLEAN : V → Option Bool
  BIGINT : V → Option Int
  DOUBLE : V → Option D

/-- The client context, known here only by identity. -/
structure ClientContext where
  id : Nat
  deriving DecidableEq, Repr

/-- The database being attached, known here only by identity. -/
structure AttachedDatabase where
  id : Nat
  deriving DecidableEq, Repr

/-- Object made by `new CClientContextWrapper(context)`. -/
structure CClientContextWrapper where
  context : ClientContext
  deriving DecidableEq, Repr

/-- Catalog products; the only one this file constructs is `DuckCatalog(db)`. -/
inductive Catalog where
  | DuckCatalog (db : AttachedDatabase)
  deriving DecidableEq, Repr

/-- Transaction-manager products; the only one constructed here is
`DuckTransactionManager(db)`. -/
inductive TransactionManager where
  | DuckTransactionManager (db : AttachedDatabase)
  deriving DecidableEq, Repr

/-- Exceptions thrown by the dispatch functions. -/
inductive Exception where
  | InternalException (msg : String)
  | InvalidInputException (msg : String)
  deriving DecidableEq, Repr

/-- Return codes of the registration function. -/
inductive duckdb_state where
  | DuckDBSuccess
  | DuckDBError
  deriving DecidableEq, Repr

/-- One invocation `fn(arg)` of a `duckdb_delete_callback_t`; function pointers and
`void *` values are known by their (non-null) address. -/
structure DeleteCall where
  fn : Nat
  arg : Nat
  deriving DecidableEq, Repr

/-! ## User callbacks

A user callback receives the handle of the call context and can act on the
context only through the accessor functions.  One run of a callback is therefore
the finite sequence of accessor calls it makes on that handle, with their
arguments. -/

/-- An accessor call on the attach context handle, with its arguments. -/
inductive AttachCall where
  | get_name
  | get_path
  | set_path (path : Option String)
  | set_duck_catalog
  | set_error (error : Option String)
  | get_extra_info
  | get_client_context (out_context : Handle) (alloc_fails : Bool)
  | get_option_varchar (key : Option String) (out_value : Handle)
  | get_option_boolean (key : Option String) (out_value : Handle)
  | get_option_bigint (key : Option String) (out_value : Handle)
  | get_option_double (key : Option String) (out_value : Handle)
  deriving DecidableEq, Repr

/-- An accessor call on the transaction context handle, with its arguments. -/
inductive TransactionCall where
  | set_duck_transaction_manager
  | set_error (error : Option String)
  | get_extra_info
  deriving DecidableEq, Repr

/-! ## Data model of attach-c.cpp -/

/-- The registry entry `struct CStorageExtension`.  The two callback slots hold a
function pointer (`none` is `nullptr`); a callback is known by the accessor calls
it makes. -/
structure CStorageExtension where
  attach_callback : Option (List AttachCall) := none
  create_transaction_manager_callback : Option (List TransactionCall) := none
  extra_info : Option Nat := none
  extra_info_delete : Option Nat := none
  deriving DecidableEq, Repr

/-- The back reference `struct CAPIStorageExtensionInfo`. -/
structure CAPIStorageExtensionInfo where
  extension : CStorageExtension
  deriving DecidableEq, Repr

/-- The attach call context `struct CAttachFunctionInfo`; the last four fields are
the ones with a default member initializer. -/
structure CAttachFunctionInfo (V : Type) where
  storage_info : Option CAPIStorageExtensionInfo
  context : ClientContext
  db : AttachedDatabase
  name : String
  attach_info : AttachInfo V
  options : AttachOptions V
  extension : CStorageExtension
  catalog : Option Catalog := none
  error : String := ""
  success : Bool := true
  string_cache : List String := []

/-- Option resolution `CAttachFunctionInfo::GetOptionValue`. -/
def CAttachFunctionInfo.GetOptionValue {V : Type} (self : CAttachFunctionInfo V)
    (key : String) : Option V :=
  match OptionMap.find self.options.options key with
  | some entry => some entry
  | none =>
    match OptionMap.find self.attach_info.options key with
    | some info_entry => some info_entry
    | none => none

/-- The transaction call context `struct CTransactionInfo`. -/
structure CTransactionInfo where
  storage_info : Option CAPIStorageExtensionInfo
  db : AttachedDatabase
  catalog : Catalog
  extension : CStorageExtension
  transaction_manager : Option TransactionManager := none
  error : String := ""
  success : Bool := true
  deriving DecidableEq, Repr

/-- The destructor `CStorageExtension::~CStorageExtension`: the destructor calls it
makes. -/
def CStorageExtension.destroy (self : CStorageExtension) : List DeleteCall :=
  match self.extra_info, self.extra_info_delete with
  | some extra_info, some extra_info_delete => [⟨extra_info_delete, extra_info⟩]
  | _, _ => []

/-- The static member `CStorageExtension::GetExtension`. -/
def CStorageExtension.GetExtension (storage_info : Option CAPIStorageExtensionInfo) :
    Except Exception CStorageExtension :=
  match storage_info with
  | none => .error (.InternalException "Storage extension info was not provided to attach callback")
  | some info => .ok info.extension

/-- The member `CStorageExtension::SetExtraInfo`: the entry afterwards and the
destructor calls made. -/
def CStorageExtension.SetExtraInfo (self : CStorageExtension) (extra_info_p : Option Nat)
    (delete_callback : Option Nat) : CStorageExtension × List DeleteCall :=
  let calls : List DeleteCall :=
    match self.extra_info, self.extra_info_delete with
    | some extra_info, some extra_info_delete => [⟨extra_info_delete, extra_info⟩]
    | _, _ => []
  ({ self with extra_info := extra_info_p, extra_info_delete := delete_callback }, calls)

/-- The member `CStorageExtension::GetExtraInfo`. -/
def CStorageExtension.GetExtraInfo (self : CStorageExtension) : Option Nat :=
  self.extra_info

/-! ## Registry-entry functions of the C API -/

/-- The heap cell `struct CStorageExtensionWrapper`; `extension` is a `unique_ptr`,
`none` when it is empty. -/
structure CStorageExtensionWrapper where
  extension : Option CStorageExtension
  deriving DecidableEq, Repr

/-- The file-static `GetExtension(duckdb_storage_extension)`. -/
def GetExtension (extension : Handle) (wrapper : CStorageExtensionWrapper) :
    Option CStorageExtension :=
  match extension with
  | .null => none
  | .live =>
    match wrapper.extension with
    | none => none
    | some ext => some ext

/-- The function `duckdb_create_storage_extension`: the returned handle and the new
wrapper; the constructor of `CStorageExtension` leaves both callback slots and
the extra-info at their `nullptr` initializers. -/
def duckdb_create_storage_extension : Handle × CStorageExtensionWrapper :=
  (.live, { extension := some {} })

/-- Result of `duckdb_destroy_storage_extension`. -/
structure DestroyResult where
  /-- Content of `*extension` afterwards (`none`: there is no such location). -/
  handle : Option Handle
  /-- The wrapper afterwards, `none` once deleted. -/
  wrapper : Option CStorageExtensionWrapper
  /-- Destructor calls made. -/
  calls : List DeleteCall
  deriving DecidableEq, Repr

/-- The function `duckdb_destroy_storage_extension`; `extension` is the pointer to
the handle variable (`none`: null pointer, `some h`: the variable holds `h`). -/
def duckdb_destroy_storage_extension (extension : Option Handle)
    (wrapper : CStorageExtensionWrapper) : DestroyResult :=
  match extension with
  | none => ⟨none, some wrapper, []⟩
  | some .null => ⟨some .null, some wrapper, []⟩
  | some .live =>
    let calls := match wrapper.extension with
      | none => []
      | some ext => ext.destroy
    ⟨some .null, none, calls⟩

/-- The function `duckdb_storage_extension_set_extra_info`. -/
def duckdb_storage_extension_set_extra_info (extension : Handle) (extra_info : Option Nat)
    (destroy : Option Nat) (wrapper : CStorageExtensionWrapper) :
    CStorageExtensionWrapper × List DeleteCall :=
  match GetExtension extension wrapper with
  | none => (wrapper, [])
  | some ext =>
    let r := ext.SetExtraInfo extra_info destroy
    ({ wrapper with extension := some r.1 }, r.2)

/-- The function `duckdb_storage_extension_get_extra_info`. -/
def duckdb_storage_extension_get_extra_info (extension : Handle)
    (wrapper : CStorageExtensionWrapper) : Option Nat :=
  match GetExtension extension wrapper with
  | none => none
  | some ext => ext.GetExtraInfo

/-- The function `duckdb_storage_extension_set_attach`. -/
def duckdb_storage_extension_set_attach (extension : Handle) (attach : Option (List AttachCall))
    (wrapper : CStorageExtensionWrapper) : CStorageExtensionWrapper :=
  match GetExtension extension wrapper, attach with
  | some ext, some attach => { wrapper with extension := some { ext with attach_callback := some attach } }
  | _, _ => wrapper

/-- The function `duckdb_storage_extension_set_transaction`. -/
def duckdb_storage_extension_set_transaction (extension : Handle)
    (create_transaction : Option (List TransactionCall)) (wrapper : CStorageExtensionWrapper) :
    CStorageExtensionWrapper :=
  match GetExtension extension wrapper, create_transaction with
  | some ext, some create_transaction =>
    { wrapper with extension := some { ext with create_transaction_manager_callback := some create_transaction } }
  | _, _ => wrapper

/-- Modelled from the spec: the runtime configuration, which "owns the
type-name-to-entry registry" (`DBConfig::storage_extensions`). -/
structure DBConfig where
  storage_extensions : List (String × CStorageExtension)
  deriving DecidableEq, Repr

/-- Modelled from the spec: map assignment `storage_extensions[type] = entry` on the
registry: the entry stored under the key is replaced (and the replaced entry
destroyed), a new key is added at the end.  Returns the map and the destructor
calls of a replaced entry. -/
def DBConfig.assign : List (String × CStorageExtension) → String → CStorageExtension →
    List (String × CStorageExtension) × List DeleteCall
  | [], type, ext => ([(type, ext)], [])
  | (k, old) :: rest, type, ext =>
    if k = type then ((k, ext) :: rest, old.destroy)
    else
      let r := DBConfig.assign rest type ext
      ((k, old) :: r.1, r.2)

/-- Result of `duckdb_config_add_storage_extension`. -/
structure AddResult where
  state : duckdb_state
  db_config : DBConfig
  /-- The wrapper afterwards, `none` once deleted. -/
  wrapper : Option CStorageExtensionWrapper
  /-- Destructor calls made. -/
  calls : List DeleteCall
  deriving DecidableEq, Repr

/-- The function `duckdb_config_add_storage_extension`.  `assign_throws` says whether the
statement inside `try`, `storage_extensions[type] = std::move(wrapper->extension)`,
throws: an exception there comes from making the key or the map node, before the
entry is moved, so the `catch (...)` branch returns `DuckDBError` with the registry and
the wrapper as they were (the wrapper is not deleted). -/
def duckdb_config_add_storage_extension (config : Handle) (type : Option String)
    (extension : Handle) (db_config : DBConfig) (wrapper : CStorageExtensionWrapper)
    (assign_throws : Bool) : AddResult :=
  match config, type, extension with
  | .live, some type, .live =>
    match wrapper.extension with
    | none => ⟨.DuckDBError, db_config, some wrapper, []⟩
    | some ext =>
      if assign_throws then ⟨.DuckDBError, db_config, some wrapper, []⟩
      else
        let r := DBConfig.assign db_config.storage_extensions type ext
        ⟨.DuckDBSuccess, { db_config with storage_extensions := r.1 }, none, r.2⟩
  | _, _, _ => ⟨.DuckDBError, db_config, some wrapper, []⟩

/-! ## Accessors of the attach call context

Each accessor takes the handle `info` and the state `mem` of the context the
handle addresses, and returns the state of the context afterwards together with
what the C function returns. -/

/-- The file-static `GetAttachInfo`. -/
def GetAttachInfo {V : Type} (info : Handle) (mem : CAttachFunctionInfo V) :
    Option (CAttachFunctionInfo V) :=
  match info with
  | .null => none
  | .live => some mem

/-- The file-static `GetTransactionInfo`. -/
def GetTransactionInfo (info : Handle) (mem : CTransactionInfo) : Option CTransactionInfo :=
  match info with
  | .null => none
  | .live => some mem

/-- The function `duckdb_attach_info_get_name`. -/
def duckdb_attach_info_get_name {V : Type} (info : Handle) (mem : CAttachFunctionInfo V) :
    Option String × CAttachFunctionInfo V :=
  match GetAttachInfo info mem with
  | none => (none, mem)
  | some attach_info => (some attach_info.name, attach_info)

/-- The function `duckdb_attach_info_get_path`. -/
def duckdb_attach_info_get_path {V : Type} (info : Handle) (mem : CAttachFunctionInfo V) :
    Option String × CAttachFunctionInfo V :=
  match GetAttachInfo info mem with
  | none => (none, mem)
  | some attach_info => (some attach_info.attach_info.path, attach_info)

/-- The function `duckdb_attach_info_set_path`. -/
def duckdb_attach_info_set_path {V : Type} (info : Handle) (path : Option String)
    (mem : CAttachFunctionInfo V) : CAttachFunctionInfo V :=
  match GetAttachInfo info mem, path with
  | some attach_info, some path =>
    { attach_info with attach_info := { attach_info.attach_info with path := path } }
  | _, _ => mem

/-- The function `duckdb_attach_info_set_duck_catalog`. -/
def duckdb_attach_info_set_duck_catalog {V : Type} (info : Handle) (mem : CAttachFunctionInfo V) :
    CAttachFunctionInfo V :=
  match GetAttachInfo info mem with
  | none => mem
  | some attach_info => { attach_info with catalog := some (.DuckCatalog attach_info.db) }

/-- The function `duckdb_attach_info_set_error`. -/
def duckdb_attach_info_set_error {V : Type} (info : Handle) (error : Option String)
    (mem : CAttachFunctionInfo V) : CAttachFunctionInfo V :=
  match GetAttachInfo info mem with
  | none => mem
  | some attach_info =>
    { attach_info with
      success := false
      error := match error with
        | some error => error
        | none => "" }

/-- The function `duckdb_attach_info_get_extra_info`. -/
def duckdb_attach_info_get_extra_info {V : Type} (info : Handle) (mem : CAttachFunctionInfo V) :
    Option Nat × CAttachFunctionInfo V :=
  match GetAttachInfo info mem with
  | none => (none, mem)
  | some attach_info => (attach_info.extension.GetExtraInfo, attach_info)

/-- The function `duckdb_attach_info_get_client_context`.  The first component is what is
stored through `out_context` (`none`: nothing stored; `some none`: `nullptr` stored);
`alloc_fails` says whether `new` throws. -/
def duckdb_attach_info_get_client_context {V : Type} (info : Handle) (out_context : Handle)
    (alloc_fails : Bool) (mem : CAttachFunctionInfo V) :
    Option (Option CClientContextWrapper) × CAttachFunctionInfo V :=
  match GetAttachInfo info mem, out_context with
  | some attach_info, .live =>
    if alloc_fails then (some none, attach_info)
    else (some (some ⟨attach_info.context⟩), attach_info)
  | _, _ => (none, mem)

/-- Result of a typed option accessor: the returned flag, the value stored through
`out_value` (`none`: nothing stored) and the context afterwards. -/
structure OptionResult (α σ : Type) where
  ret : Bool
  out : Option α
  info : σ

/-- The file-static `AttachInfoGetString`.  The stored `const char *` is
`string_cache.back().c_str()`: it addresses the text of the element just pushed and is
given as the index of that element.  The index names the element, not a stable
address: whether the address still holds the text after later `push_back` calls is a
matter of the storage of the `vector<string>`, see `cstrValid`. -/
def AttachInfoGetString {V D : Type} (cast : DefaultCast V D) (info : Handle)
    (key : Option String) (out_value : Handle) (mem : CAttachFunctionInfo V) :
    OptionResult Nat (CAttachFunctionInfo V) :=
  match GetAttachInfo info mem, key, out_value with
  | some attach_info, some key, .live =>
    match attach_info.GetOptionValue key with
    | none => ⟨false, none, attach_info⟩
    | some value =>
      match cast.VARCHAR value with
      | some result =>
        let string_cache := attach_info.string_cache ++ [result]
        ⟨true, some (string_cache.length - 1), { attach_info with string_cache := string_cache }⟩
      | none => ⟨false, none, attach_info⟩
  | _, _, _ => ⟨false, none, mem⟩

/-- The function `duckdb_attach_info_get_option_varchar`. -/
def duckdb_attach_info_get_option_varchar {V D : Type} (cast : DefaultCast V D) (info : Handle)
    (key : Option String) (out_value : Handle) (mem : CAttachFunctionInfo V) :
    OptionResult Nat (CAttachFunctionInfo V) :=
  AttachInfoGetString cast info key out_value mem

/-- The function `duckdb_attach_info_get_option_boolean`. -/
def duckdb_attach_info_get_option_boolean {V D : Type} (cast : DefaultCast V D) (info : Handle)
    (key : Option String) (out_value : Handle) (mem : CAttachFunctionInfo V) :
    OptionResult Bool (CAttachFunctionInfo V) :=
  match GetAttachInfo info mem, key, out_value with
  | some attach_info, some key, .live =>
    match attach_info.GetOptionValue key with
    | none => ⟨false, none, attach_info⟩
    | some value =>
      match cast.BOOLEAN value with
      | some boolean_value => ⟨true, some boolean_value, attach_info⟩
      | none => ⟨false, none, attach_info⟩
  | _, _, _ => ⟨false, none, mem⟩

/-- The function `duckdb_attach_info_get_option_bigint`. -/
def duckdb_attach_info_get_option_bigint {V D : Type} (cast : DefaultCast V D) (info : Handle)
    (key : Option String) (out_value : Handle) (mem : CAttachFunctionInfo V) :
    OptionResult Int (CAttachFunctionInfo V) :=
  match GetAttachInfo info mem, key, out_value with
  | some attach_info, some key, .live =>
    match attach_info.GetOptionValue key with
    | none => ⟨false, none, attach_info⟩
    | some value =>
      match cast.BIGINT value with
      | some bigint_value => ⟨true, some bigint_value, attach_info⟩
      | none => ⟨false, none, attach_info⟩
  | _, _, _ => ⟨false, none, mem⟩

/-- The function `duckdb_attach_info_get_option_double`. -/
def duckdb_attach_info_get_option_double {V D : Type} (cast : DefaultCast V D) (info : Handle)
    (key : Option String) (out_value : Handle) (mem : CAttachFunctionInfo V) :
    OptionResult D (CAttachFunctionInfo V) :=
  match GetAttachInfo info mem, key, out_value with
  | some attach_info, some key, .live =>
    match attach_info.GetOptionValue key with
    | none => ⟨false, none, attach_info⟩
    | some value =>
      match cast.DOUBLE value with
      | some double_value => ⟨true, some double_value, attach_info⟩
      | none => ⟨false, none, attach_info⟩
  | _, _, _ => ⟨false, none, mem⟩

/-! ## Accessors of the transaction call context -/

/-- The function `duckdb_transaction_info_set_duck_transaction_manager`. -/
def duckdb_transaction_info_set_duck_transaction_manager (info : Handle) (mem : CTransactionInfo) :
    CTransactionInfo :=
  match GetTransactionInfo info mem with
  | none => mem
  | some transaction_info =>
    { transaction_info with
      transaction_manager := some (.DuckTransactionManager transaction_info.db) }

/-- The function `duckdb_transaction_info_set_error`. -/
def duckdb_transaction_info_set_error (info : Handle) (error : Option String)
    (mem : CTransactionInfo) : CTransactionInfo :=
  match GetTransactionInfo info mem with
  | none => mem
  | some transaction_info =>
    { transaction_info with
      success := false
      error := match error with
        | some error => error
        | none => "" }

/-- The function `duckdb_transaction_info_get_extra_info`. -/
def duckdb_transaction_info_get_extra_info (info : Handle) (mem : CTransactionInfo) :
    Option Nat × CTransactionInfo :=
  match GetTransactionInfo info mem with
  | none => (none, mem)
  | some transaction_info => (transaction_info.extension.GetExtraInfo, transaction_info)

/-! ## Running a user callback -/

/-- Effect on the attach context of one accessor call made through the handle `info`. -/
def AttachCall.exec {V D : Type} (cast : DefaultCast V D) (info : Handle) :
    AttachCall → CAttachFunctionInfo V → CAttachFunctionInfo V
  | .get_name, mem => (duckdb_attach_info_get_name info mem).2
  | .get_path, mem => (duckdb_attach_info_get_path info mem).2
  | .set_path path, mem => duckdb_attach_info_set_path info path mem
  | .set_duck_catalog, mem => duckdb_attach_info_set_duck_catalog info mem
  | .set_error error, mem => duckdb_attach_info_set_error info error mem
  | .get_extra_info, mem => (duckdb_attach_info_get_extra_info info mem).2
  | .get_client_context out_context alloc_fails, mem =>
    (duckdb_attach_info_get_client_context info out_context alloc_fails mem).2
  | .get_option_varchar key out_value, mem =>
    (duckdb_attach_info_get_option_varchar cast info key out_value mem).info
  | .get_option_boolean key out_value, mem =>
    (duckdb_attach_info_get_option_boolean cast info key out_value mem).info
  | .get_option_bigint key out_value, mem =>
    (duckdb_attach_info_get_option_bigint cast info key out_value mem).info
  | .get_option_double key out_value, mem =>
    (duckdb_attach_info_get_option_double cast info key out_value mem).info

/-- The invocation `attach_callback(info)`: the callback's accessor calls in order. -/
def runAttachCallback {V D : Type} (cast : DefaultCast V D) (info : Handle) :
    List AttachCall → CAttachFunctionInfo V → CAttachFunctionInfo V
  | [], mem => mem
  | call :: rest, mem => runAttachCallback cast info rest (call.exec cast info mem)

/-- Effect on the transaction context of one accessor call made through `info`. -/
def TransactionCall.exec (info : Handle) : TransactionCall → CTransactionInfo → CTransactionInfo
  | .set_duck_transaction_manager, mem => duckdb_transaction_info_set_duck_transaction_manager info mem
  | .set_error error, mem => duckdb_transaction_info_set_error info error mem
  | .get_extra_info, mem => (duckdb_transaction_info_get_extra_info info mem).2

/-- The invocation `create_transaction_manager_callback(info)`. -/
def runTransactionCallback (info : Handle) :
    List TransactionCall → CTransactionInfo → CTransactionInfo
  | [], mem => mem
  | call :: rest, mem => runTransactionCallback info rest (call.exec info mem)

/-! ## Dispatch functions -/

/-- The constructor of `CAttachFunctionInfo`. -/
def CAttachFunctionInfo.construct {V : Type} (storage_info_p : Option CAPIStorageExtensionInfo)
    (context_p : ClientContext) (db_p : AttachedDatabase) (name_p : String)
    (attach_info_p : AttachInfo V) (options_p : AttachOptions V) (extension_p : CStorageExtension) :
    CAttachFunctionInfo V :=
  { storage_info := storage_info_p, context := context_p, db := db_p, name := name_p,
    attach_info := attach_info_p, options := options_p, extension := extension_p }

/-- The constructor of `CTransactionInfo`. -/
def CTransactionInfo.construct (storage_info_p : Option CAPIStorageExtensionInfo)
    (db_p : AttachedDatabase) (catalog_p : Catalog) (extension_p : CStorageExtension) :
    CTransactionInfo :=
  { storage_info := storage_info_p, db := db_p, catalog := catalog_p, extension := extension_p }

/-- What `AttachCallback` leaves behind: the returned `unique_ptr<Catalog>` (`none` when
empty) or the exception thrown, the state of the objects it received by reference,
and whether the user callback was invoked. -/
structure AttachOutcome (V : Type) where
  result : Except Exception (Option Catalog)
  attach_info : AttachInfo V
  options : AttachOptions V
  storage_info : Option CAPIStorageExtensionInfo
  invoked : Bool

/-- The attach dispatch `CStorageExtension::AttachCallback`. -/
def CStorageExtension.AttachCallback {V D : Type} (cast : DefaultCast V D)
    (storage_info : Option CAPIStorageExtensionInfo) (context : ClientContext)
    (db : AttachedDatabase) (name : String) (attach_info : AttachInfo V)
    (options : AttachOptions V) : AttachOutcome V :=
  match CStorageExtension.GetExtension storage_info with
  | .error e => ⟨.error e, attach_info, options, storage_info, false⟩
  | .ok extension =>
    match extension.attach_callback with
    | none =>
      ⟨.error (.InvalidInputException "Attach callback was not set for storage extension"),
        attach_info, options, storage_info, false⟩
    | some attach_callback =>
      let info := CAttachFunctionInfo.construct storage_info context db name attach_info options
        extension
      let info := runAttachCallback cast .live attach_callback info
      let result : Except Exception (Option Catalog) :=
        if !info.success then .error (.InvalidInputException info.error)
        else if info.catalog.isNone then
          .error (.InvalidInputException "Attach callback did not produce a catalog")
        else .ok info.catalog
      ⟨result, info.attach_info, info.options, info.storage_info, true⟩

/-- What `CreateTransactionManagerCallback` leaves behind. -/
structure TransactionOutcome where
  result : Except Exception (Option TransactionManager)
  catalog : Catalog
  storage_info : Option CAPIStorageExtensionInfo
  invoked : Bool

/-- The transaction-manager dispatch `CStorageExtension::CreateTransactionManagerCallback`. -/
def CStorageExtension.CreateTransactionManagerCallback
    (storage_info : Option CAPIStorageExtensionInfo) (db : AttachedDatabase) (catalog : Catalog) :
    TransactionOutcome :=
  match CStorageExtension.GetExtension storage_info with
  | .error e => ⟨.error e, catalog, storage_info, false⟩
  | .ok extension =>
    match extension.create_transaction_manager_callback with
    | none =>
      ⟨.error (.InvalidInputException
          "Create transaction manager callback was not set for storage extension"),
        catalog, storage_info, false⟩
    | some create_transaction_manager_callback =>
      let info := CTransactionInfo.construct storage_info db catalog extension
      let info := runTransactionCallback .live create_transaction_manager_callback info
      let result : Except Exception (Option TransactionManager) :=
        if !info.success then .error (.InvalidInputException info.error)
        else if info.transaction_manager.isNone then
          .error (.InvalidInputException
            "Create transaction manager callback did not produce a transaction manager")
        else .ok info.transaction_manager
      ⟨result, info.catalog, info.storage_info, true⟩

/-! ## Life of an entry -/

/-- A run of `duckdb_storage_extension_set_extra_info` calls through a live handle, one per
`(extra_info, destroy)` pair of the list: the wrapper afterwards and the destructor calls
made, in order. -/
def setExtraInfoRun : List (Option Nat × Option Nat) → CStorageExtensionWrapper →
    CStorageExtensionWrapper × List DeleteCall
  | [], wrapper => (wrapper, [])
  | (extra_info, destroy) :: rest, wrapper =>
    let r := duckdb_storage_extension_set_extra_info .live extra_info destroy wrapper
    let r2 := setExtraInfoRun rest r.1
    (r2.1, r.2 ++ r2.2)

/-- Modelled from the spec: destruction of the runtime configuration ("registry
teardown"), which destroys every entry the registry owns; the destructor calls made. -/
def DBConfig.destroy (db_config : DBConfig) : List DeleteCall :=
  (db_config.storage_extensions.map (fun entry => entry.2.destroy)).flatten

/-- All destructor calls in the life of an entry that is given the extra-infos of `sets`
and then discarded with `duckdb_destroy_storage_extension` before any registration. -/
def discardedEntryCalls (sets : List (Option Nat × Option Nat))
    (wrapper : CStorageExtensionWrapper) : List DeleteCall :=
  let r := setExtraInfoRun sets wrapper
  r.2 ++ (duckdb_destroy_storage_extension (some .live) r.1).calls

/-- All destructor calls in the life of an entry that is given the extra-infos of `sets` and
then handed to `duckdb_config_add_storage_extension` under `type`: when the registration
succeeds the entry is destroyed with the registry; when it fails the wrapper is still
the caller's, who discards it with `duckdb_destroy_storage_extension` before the
registry is destroyed. -/
def registeredEntryCalls (sets : List (Option Nat × Option Nat)) (type : String)
    (db_config : DBConfig) (assign_throws : Bool) (wrapper : CStorageExtensionWrapper) :
    List DeleteCall :=
  let r := setExtraInfoRun sets wrapper
  let added := duckdb_config_add_storage_extension .live (some type) .live db_config r.1
    assign_throws
  let discarded := match added.wrapper with
    | some left => (duckdb_destroy_storage_extension (some .live) left).calls
    | none => []
  r.2 ++ added.calls ++ discarded ++ added.db_config.destroy

/-- The destructor call owed for one `set_extra_info(extra_info, destroy)`: none when the
pointer or the destructor is null. -/
def owedCall : Option Nat × Option Nat → Option DeleteCall
  | (some extra_info, some destroy) => some ⟨destroy, extra_info⟩
  | _ => none

/-! ## Storage of the scratch list

`string_cache` is a `vector<string>` that starts empty and is changed by `push_back`
alone (in `AttachInfoGetString`).  This part is the semantics of the C++ standard
library, which the source relies on: `push_back` on a vector whose size equals its
capacity allocates a new block, moves the elements into it and frees the old one; a
`std::string` short enough for the small-string buffer keeps its characters inside its
own object, so they move with it, while a longer one keeps them in a buffer of its own
that survives the move. -/

/-- The two constants of a standard-library implementation that decide where the characters
of a cached string live. -/
structure StdLayout where
  /-- Longest text, in bytes, that a `std::string` keeps inside its own object (15 in
  libstdc++ and in the Microsoft library, 22 in libc++). -/
  sso_capacity : Nat
  /-- Capacity that `push_back` reallocates to when the vector is full, from the old capacity
  (all three libraries go from 0 to 1). -/
  grow : Nat → Nat

/-- Capacity of a vector after the given number of `push_back` calls on an empty vector. -/
def vectorCapacity (layout : StdLayout) : Nat → Nat
  | 0 => 0
  | n + 1 =>
    if n < vectorCapacity layout n then vectorCapacity layout n
    else layout.grow (vectorCapacity layout n)

/-- The storage block of a vector after the given number of `push_back` calls on an empty
vector, blocks being numbered in the order of their allocation. -/
def vectorBlock (layout : StdLayout) : Nat → Nat
  | 0 => 0
  | n + 1 =>
    if n < vectorCapacity layout n then vectorBlock layout n
    else vectorBlock layout n + 1

/-- Whether the `const char *` that `AttachInfoGetString` stored for the element `slot`, taken
right after the `push_back` that made the vector `slot + 1` long, still addresses that
text when the scratch list is `string_cache`: the text lives in a buffer of its own, or
the vector is still in the block it was in when the pointer was taken. -/
def cstrValid (layout : StdLayout) (slot : Nat) (string_cache : List String) : Bool :=
  match string_cache[slot]? with
  | none => false
  | some text =>
    decide (layout.sso_capacity < text.utf8ByteSize)
      || decide (vectorBlock layout (slot + 1) = vectorBlock layout string_cache.length)

/-- The layout of libstdc++: 15 bytes of small-string buffer, capacity doubling from 1. -/
def libstdcxxLayout : StdLayout :=
  { sso_capacity := 15
    grow := fun capacity => if capacity = 0 then 1 else 2 * capacity }

/-! ## Example inputs -/

/-- An example of the runtime's `Value`: a text, a boolean, an integer or a real
(given as numerator and denominator). -/
inductive ExampleValue where
  | text (s : String)
  | boolean (b : Bool)
  | integer (i : Int)
  | real (num : Int) (den : Nat)
  deriving DecidableEq, Repr

/-- An example of a default cast on `ExampleValue`: every kind converts to itself, a
boolean also to an integer and an integer also to a real; every other conversion
throws. -/
def exampleCast : DefaultCast ExampleValue (Int × Nat) :=
  { VARCHAR := fun v => match v with
      | .text s => some s
      | _ => none
    BOOLEAN := fun v => match v with
      | .boolean b => some b
      | _ => none
    BIGINT := fun v => match v with
      | .integer i => some i
      | .boolean b => some (if b then 1 else 0)
      | _ => none
    DOUBLE := fun v => match v with
      | .real n d => some (n, d)
      | .integer i => some (i, 1)
      | _ => none }

/-- The call-site options of the statement in test_capi_attach.cpp:
`(TYPE cstorage, custom 'value', flag true, count 42, ratio 1.5)`. -/
def exampleOptions : AttachOptions ExampleValue :=
  ⟨[("custom", .text "value"), ("flag", .boolean true), ("count", .integer 42),
    ("ratio", .real 3 2)]⟩

/-- The attach-info of the statement in test_capi_attach.cpp: an ATTACH of the path `:memory:`. -/
def exampleAttachInfo : AttachInfo ExampleValue :=
  ⟨":memory:", []⟩

/-- The callback `StorageAttachCallback` of test_capi_attach.cpp, as the accessor calls it
makes; `path` is what it read with `get_path` and hands back to `set_path`. -/
def StorageAttachCallback (path : Option String) : List AttachCall :=
  [.get_extra_info, .get_name, .get_path, .set_path path, .get_client_context .live false,
    .get_option_varchar (some "custom") .live, .get_option_boolean (some "flag") .live,
    .get_option_bigint (some "count") .live, .get_option_double (some "ratio") .live,
    .set_duck_catalog]

/-- The callback `StorageTransactionCallback` of test_capi_attach.cpp. -/
def StorageTransactionCallback : List TransactionCall :=
  [.get_extra_info, .set_duck_transaction_manager]

/-- The callback `FailingAttachCallback` of test_capi_attach.cpp. -/
def FailingAttachCallback : List AttachCall :=
  [.set_error (some "attach failure")]

/-! ## The typed option accessors as the specification words them -/

theorem attachExec_frame {V D : Type} (cast : DefaultCast V D) (h : Handle) (c : AttachCall)
    (mem : CAttachFunctionInfo V) :
    (c.exec cast h mem).db = mem.db ∧ (c.exec cast h mem).options = mem.options ∧
    (c.exec cast h mem).storage_info = mem.storage_info ∧
    (c.exec cast h mem).extension = mem.extension ∧
    (c.exec cast h mem).context = mem.context ∧ (c.exec cast h mem).name = mem.name ∧
    (c.exec cast h mem).attach_info.options = mem.attach_info.options := by
  cases c <;> cases h <;>
    simp only [AttachCall.exec, duckdb_attach_info_get_name, duckdb_attach_info_get_path,
      duckdb_attach_info_set_path, duckdb_attach_info_set_duck_catalog,
      duckdb_attach_info_set_error, duckdb_attach_info_get_extra_info,
      duckdb_attach_info_get_client_context, duckdb_attach_info_get_option_varchar,
      AttachInfoGetString, duckdb_attach_info_get_option_boolean,
      duckdb_attach_info_get_option_bigint, duckdb_attach_info_get_option_double,
      GetAttachInfo] <;>
    (repeat' split) <;> simp_all

theorem attachExec_success_of_ne {V D : Type} (cast : DefaultCast V D) (h : Handle)
    (c : AttachCall) (mem : CAttachFunctionInfo V) (hc : ∀ e, c ≠ .set_error e) :
    (c.exec cast h mem).success = mem.success ∧ (c.exec cast h mem).error = mem.error := by
  cases c <;> cases h <;>
    simp only [AttachCall.exec, duckdb_attach_info_get_name, duckdb_attach_info_get_path,
      duckdb_attach_info_set_path, duckdb_attach_info_set_duck_catalog,
      duckdb_attach_info_set_error, duckdb_attach_info_get_extra_info,
      duckdb_attach_info_get_client_context, duckdb_attach_info_get_option_varchar,
      AttachInfoGetString, duckdb_attach_info_get_option_boolean,
      duckdb_attach_info_get_option_bigint, duckdb_attach_info_get_option_double,
      GetAttachInfo] <;>
    (repeat' split) <;> simp_all

theorem attachExec_success_false {V D : Type} (cast : DefaultCast V D) (h : Handle)
    (c : AttachCall) (mem : CAttachFunctionInfo V) (hs : mem.success = false) :
    (c.exec cast h mem).success = false := by
  by_cases hc : ∀ e, c ≠ .set_error e
  · rw [(attachExec_success_of_ne cast h c mem hc).1, hs]
  · push_neg at hc
    obtain ⟨e, rfl⟩ := hc
    cases h <;>
      simp [AttachCall.exec, duckdb_attach_info_set_error, GetAttachInfo, hs]

theorem attachExec_set_error {V D : Type} (cast : DefaultCast V D) (e : Option String)
    (mem : CAttachFunctionInfo V) :
    ((AttachCall.set_error e).exec cast .live mem).success = false ∧
    ((AttachCall.set_error e).exec cast .live mem).error = e.getD "" := by
  cases e <;> simp [AttachCall.exec, duckdb_attach_info_set_error, GetAttachInfo]

theorem attachExec_catalog_of_ne {V D : Type} (cast : DefaultCast V D) (h : Handle)
    (c : AttachCall) (mem : CAttachFunctionInfo V) (hc : c ≠ .set_duck_catalog) :
    (c.exec cast h mem).catalog = mem.catalog := by
  cases c <;> cases h <;>
    simp only [AttachCall.exec, duckdb_attach_info_get_name, duckdb_attach_info_get_path,
      duckdb_attach_info_set_path, duckdb_attach_info_set_duck_catalog,
      duckdb_attach_info_set_error, duckdb_attach_info_get_extra_info,
      duckdb_attach_info_get_client_context, duckdb_attach_info_get_option_varchar,
      AttachInfoGetString, duckdb_attach_info_get_option_boolean,
      duckdb_attach_info_get_option_bigint, duckdb_attach_info_get_option_double,
      GetAttachInfo] <;>
    (repeat' split) <;> simp_all

theorem attachExec_set_duck_catalog {V D : Type} (cast : DefaultCast V D)
    (mem : CAttachFunctionInfo V) :
    (AttachCall.set_duck_catalog.exec cast .live mem).catalog = some (.DuckCatalog mem.db) := by
  simp [AttachCall.exec, duckdb_attach_info_set_duck_catalog, GetAttachInfo]

theorem attachExec_catalog_keep {V D : Type} (cast : DefaultCast V D) (h : Handle)
    (c : AttachCall) (mem : CAttachFunctionInfo V)
    (hcat : mem.catalog = some (.DuckCatalog mem.db)) :
    (c.exec cast h mem).catalog = some (.DuckCatalog mem.db) := by
  by_cases hc : c = .set_duck_catalog
  · subst hc
    cases h
    · simpa [AttachCall.exec, duckdb_attach_info_set_duck_catalog, GetAttachInfo] using hcat
    · exact attachExec_set_duck_catalog cast mem
  · rw [attachExec_catalog_of_ne cast h c mem hc, hcat]

/-! ### Effect of a whole callback run -/

theorem runAttachCallback_append {V D : Type} (cast : DefaultCast V D) (h : Handle)
    (a b : List AttachCall) (mem : CAttachFunctionInfo V) :
    runAttachCallback cast h (a ++ b) mem
      = runAttachCallback cast h b (runAttachCallback cast h a mem) := by
  induction a generalizing mem with
  | nil => rfl
  | cons c a ih => simp [runAttachCallback, ih]

theorem runAttachCallback_frame {V D : Type} (cast : DefaultCast V D) (h : Handle)
    (cb : List AttachCall) (mem : CAttachFunctionInfo V) :
    (runAttachCallback cast h cb mem).db = mem.db ∧
    (runAttachCallback cast h cb mem).options = mem.options ∧
    (runAttachCallback cast h cb mem).storage_info = mem.storage_info ∧
    (runAttachCallback cast h cb mem).extension = mem.extension ∧
    (runAttachCallback cast h cb mem).attach_info.options = mem.attach_info.options := by
  induction cb generalizing mem with
  | nil => simp [runAttachCallback]
  | cons c cb ih =>
    have hf := attachExec_frame cast h c mem
    have := ih (c.exec cast h mem)
    simp only [runAttachCallback]
    refine ⟨?_, ?_, ?_, ?_, ?_⟩
    · rw [this.1, hf.1]
    · rw [this.2.1, hf.2.1]
    · rw [this.2.2.1, hf.2.2.1]
    · rw [this.2.2.2.1, hf.2.2.2.1]
    · rw [this.2.2.2.2, hf.2.2.2.2.2.2]

theorem runAttachCallback_success_false {V D : Type} (cast : DefaultCast V D) (h : Handle)
    (cb : List AttachCall) (mem : CAttachFunctionInfo V) (hs : mem.success = false) :
    (runAttachCallback cast h cb mem).success = false := by
  induction cb generalizing mem with
  | nil => simpa [runAttachCallback] using hs
  | cons c cb ih => exact ih _ (attachExec_success_false cast h c mem hs)

theorem runAttachCallback_no_error {V D : Type} (cast : DefaultCast V D) (h : Handle)
    (cb : List AttachCall) (mem : CAttachFunctionInfo V)
    (hcb : ∀ e, AttachCall.set_error e ∉ cb) :
    (runAttachCallback cast h cb mem).success = mem.success ∧
    (runAttachCallback cast h cb mem).error = mem.error := by
  induction cb generalizing mem with
  | nil => simp [runAttachCallback]
  | cons c cb ih =>
    have hc : ∀ e, c ≠ .set_error e := fun e he => hcb e (by simp [he])
    have hrest : ∀ e, AttachCall.set_error e ∉ cb := fun e he => hcb e (by simp [he])
    have h1 := attachExec_success_of_ne cast h c mem hc
    have h2 := ih (c.exec cast h mem) hrest
    simp only [runAttachCallback]
    exact ⟨h2.1.trans h1.1, h2.2.trans h1.2⟩

theorem runAttachCallback_error_mem {V D : Type} (cast : DefaultCast V D)
    (cb : List AttachCall) (mem : CAttachFunctionInfo V) (e : Option String)
    (he : AttachCall.set_error e ∈ cb) :
    (runAttachCallback cast .live cb mem).success = false := by
  obtain ⟨pre, post, rfl⟩ := List.append_of_mem he
  rw [runAttachCallback_append]
  simp only [runAttachCallback]
  exact runAttachCallback_success_false cast .live post _ (attachExec_set_error cast e _).1

theorem runAttachCallback_error_last {V D : Type} (cast : DefaultCast V D)
    (pre post : List AttachCall) (mem : CAttachFunctionInfo V) (e : Option String)
    (hpost : ∀ e2, AttachCall.set_error e2 ∉ post) :
    (runAttachCallback cast .live (pre ++ .set_error e :: post) mem).success = false ∧
    (runAttachCallback cast .live (pre ++ .set_error e :: post) mem).error = e.getD "" := by
  rw [runAttachCallback_append]
  simp only [runAttachCallback]
  have h1 := attachExec_set_error cast e (runAttachCallback cast .live pre mem)
  have h2 := runAttachCallback_no_error cast .live post
    ((AttachCall.set_error e).exec cast .live (runAttachCallback cast .live pre mem)) hpost
  exact ⟨h2.1.trans h1.1, h2.2.trans h1.2⟩

theorem runAttachCallback_no_catalog {V D : Type} (cast : DefaultCast V D) (h : Handle)
    (cb : List AttachCall) (mem : CAttachFunctionInfo V)
    (hcb : AttachCall.set_duck_catalog ∉ cb) :
    (runAttachCallback cast h cb mem).catalog = mem.catalog := by
  induction cb generalizing mem with
  | nil => simp [runAttachCallback]
  | cons c cb ih =>
    have hc : c ≠ .set_duck_catalog := fun he => hcb (by simp [he])
    have hrest : AttachCall.set_duck_catalog ∉ cb := fun he => hcb (by simp [he])
    simp only [runAttachCallback]
    rw [ih _ hrest, attachExec_catalog_of_ne cast h c mem hc]

theorem runAttachCallback_catalog_keep {V D : Type} (cast : DefaultCast V D) (h : Handle)
    (cb : List AttachCall) (mem : CAttachFunctionInfo V)
    (hcat : mem.catalog = some (.DuckCatalog mem.db)) :
    (runAttachCallback cast h cb mem).catalog = some (.DuckCatalog mem.db) := by
  induction cb generalizing mem with
  | nil => simpa [runAttachCallback] using hcat
  | cons c cb ih =>
    have hdb := (attachExec_frame cast h c mem).1
    have := ih (c.exec cast h mem) (by rw [hdb]; exact attachExec_catalog_keep cast h c mem hcat)
    simp only [runAttachCallback]
    rw [this, hdb]

theorem runAttachCallback_catalog_mem {V D : Type} (cast : DefaultCast V D)
    (cb : List AttachCall) (mem : CAttachFunctionInfo V)
    (hcb : AttachCall.set_duck_catalog ∈ cb) :
    (runAttachCallback cast .live cb mem).catalog = some (.DuckCatalog mem.db) := by
  obtain ⟨pre, post, rfl⟩ := List.append_of_mem hcb
  rw [runAttachCallback_append]
  simp only [runAttachCallback]
  have hdb1 := (runAttachCallback_frame cast .live pre mem).1
  have hdb2 := (attachExec_frame cast .live .set_duck_catalog
    (runAttachCallback cast .live pre mem)).1
  have hk := runAttachCallback_catalog_keep cast .live post
    (AttachCall.set_duck_catalog.exec cast .live (runAttachCallback cast .live pre mem))
    (by rw [hdb2]; exact attachExec_set_duck_catalog cast _)
  rw [hk, hdb2, hdb1]

/-! ### Option resolution -/

/-- C1: option resolution returns the call-site value when the key is in the call-site
mapping, otherwise the declarative value when the key is in the declarative mapping,
and is absent exactly when neither mapping has the key; a key bound to "call" at the
call site and to "decl" declaratively resolves to "call". -/
theorem GetOptionValue_precedence {V : Type} (info : CAttachFunctionInfo V) (key : String) :
    (∀ v, OptionMap.find info.options.options key = some v → info.GetOptionValue key = some v) ∧
    (OptionMap.find info.options.options key = none →
      info.GetOptionValue key = OptionMap.find info.attach_info.options key) ∧
    (info.GetOptionValue key = none ↔
      OptionMap.find info.options.options key = none ∧
      OptionMap.find info.attach_info.options key = none) ∧
    ∀ (si : Option CAPIStorageExtensionInfo) (c : ClientContext) (db : AttachedDatabase)
      (n p : String) (e : CStorageExtension),
      (CAttachFunctionInfo.construct si c db n ⟨p, [("k", "decl")]⟩ ⟨[("k", "call")]⟩
        e).GetOptionValue "k" = some "call" := by
  refine ⟨?_, ?_, ?_, ?_⟩
  · intro v h
    simp [CAttachFunctionInfo.GetOptionValue, h]
  · intro h
    simp only [CAttachFunctionInfo.GetOptionValue, h]
    cases OptionMap.find info.attach_info.options key <;> rfl
  · simp only [CAttachFunctionInfo.GetOptionValue]
    cases OptionMap.find info.options.options key <;>
      cases OptionMap.find info.attach_info.options key <;> simp
  · intro si c db n p e
    simp [CAttachFunctionInfo.GetOptionValue, CAttachFunctionInfo.construct, OptionMap.find]

/-- Witness of C1 on the options of the test statement: "custom" is found at the call site,
"absent" in neither mapping. -/
theorem GetOptionValue_precedence_witness :
    (CAttachFunctionInfo.construct none ⟨0⟩ ⟨1⟩ "capi_ext" exampleAttachInfo exampleOptions
        {}).GetOptionValue "custom" = some (.text "value") ∧
    (CAttachFunctionInfo.construct none ⟨0⟩ ⟨1⟩ "capi_ext" exampleAttachInfo exampleOptions
        {}).GetOptionValue "absent" = none :=
  ⟨(GetOptionValue_precedence
      (CAttachFunctionInfo.construct none ⟨0⟩ ⟨1⟩ "capi_ext" exampleAttachInfo exampleOptions {})
      "custom").1 (.text "value") (by decide),
   (GetOptionValue_precedence
      (CAttachFunctionInfo.construct none ⟨0⟩ ⟨1⟩ "capi_ext" exampleAttachInfo exampleOptions {})
      "absent").2.2.1.mpr ⟨by decide, by decide⟩⟩

/-! ### Attach dispatch -/

/-- C2: when the attach callback of the entry calls the error setter at least once, the
attach dispatch throws an invalid-input failure and returns no catalog, whatever else
the callback calls before or after, the produce-default-catalog operation included. -/
theorem AttachCallback_error_dominates {V D : Type} (cast : DefaultCast V D)
    (extension : CStorageExtension) (context : ClientContext) (db : AttachedDatabase)
    (name : String) (attach_info : AttachInfo V) (options : AttachOptions V)
    (callback : List AttachCall) (error : Option String)
    (hset : extension.attach_callback = some callback)
    (herr : AttachCall.set_error error ∈ callback) :
    (∃ msg, (CStorageExtension.AttachCallback cast (some ⟨extension⟩) context db name attach_info
        options).result = .error (.InvalidInputException msg)) ∧
    ∀ catalog, (CStorageExtension.AttachCallback cast (some ⟨extension⟩) context db name
        attach_info options).result ≠ .ok catalog := by
  have hs := runAttachCallback_error_mem cast callback
    (CAttachFunctionInfo.construct (some ⟨extension⟩) context db name attach_info options
      extension) error herr
  simp only [CStorageExtension.AttachCallback, CStorageExtension.GetExtension, hset, hs]
  simp

/-- Witness of C2: a callback that produces the default catalog, sets an error and produces
the catalog again. -/
theorem AttachCallback_error_dominates_witness :
    (∃ msg, (CStorageExtension.AttachCallback exampleCast
        (some ⟨{ attach_callback := some [.set_duck_catalog, .set_error (some "no"),
          .set_duck_catalog] }⟩) ⟨0⟩ ⟨1⟩ "capi_ext" exampleAttachInfo exampleOptions).result
        = .error (.InvalidInputException msg)) ∧
    ∀ catalog, (CStorageExtension.AttachCallback exampleCast
        (some ⟨{ attach_callback := some [.set_duck_catalog, .set_error (some "no"),
          .set_duck_catalog] }⟩) ⟨0⟩ ⟨1⟩ "capi_ext" exampleAttachInfo exampleOptions).result
        ≠ .ok catalog :=
  AttachCallback_error_dominates exampleCast
    { attach_callback := some [.set_duck_catalog, .set_error (some "no"), .set_duck_catalog] }
    ⟨0⟩ ⟨1⟩ "capi_ext" exampleAttachInfo exampleOptions
    [.set_duck_catalog, .set_error (some "no"), .set_duck_catalog] (some "no") rfl (by decide)

/-- C3: when the attach callback calls the error setter, the failure thrown by the attach
dispatch carries the message of the last error-setter call verbatim, and the empty text
when that message was null. -/
theorem AttachCallback_error_text {V D : Type} (cast : DefaultCast V D)
    (extension : CStorageExtension) (context : ClientContext) (db : AttachedDatabase)
    (name : String) (attach_info : AttachInfo V) (options : AttachOptions V)
    (before after : List AttachCall) (error : Option String)
    (hset : extension.attach_callback = some (before ++ .set_error error :: after))
    (hlast : ∀ e, AttachCall.set_error e ∉ after) :
    (CStorageExtension.AttachCallback cast (some ⟨extension⟩) context db name attach_info
        options).result
      = .error (.InvalidInputException (match error with
          | some text => text
          | none => "")) := by
  have hs := runAttachCallback_error_last cast before after
    (CAttachFunctionInfo.construct (some ⟨extension⟩) context db name attach_info options
      extension) error hlast
  simp only [CStorageExtension.AttachCallback, CStorageExtension.GetExtension, hset, hs.1, hs.2]
  cases error <;> simp

/-- Witness of C3: the failing callback of the test makes the dispatch fail with the text
"attach failure". -/
theorem AttachCallback_error_text_witness :
    (CStorageExtension.AttachCallback exampleCast
        (some ⟨{ attach_callback := some FailingAttachCallback }⟩) ⟨0⟩ ⟨1⟩ "failing"
        exampleAttachInfo ⟨[]⟩).result
      = .error (.InvalidInputException "attach failure") :=
  AttachCallback_error_text exampleCast { attach_callback := some FailingAttachCallback }
    ⟨0⟩ ⟨1⟩ "failing" exampleAttachInfo ⟨[]⟩ [] [] (some "attach failure") rfl (by simp)

/-- C4: when the attach callback calls neither the error setter nor the
produce-default-catalog operation, the attach dispatch throws the fixed failure
"Attach callback did not produce a catalog"; and no dispatch, whatever the entry and the
callback, returns an empty catalog as a success. -/
theorem AttachCallback_no_catalog {V D : Type} (cast : DefaultCast V D)
    (storage_info : Option CAPIStorageExtensionInfo) (context : ClientContext)
    (db : AttachedDatabase) (name : String) (attach_info : AttachInfo V)
    (options : AttachOptions V) :
    (∀ extension callback, storage_info = some ⟨extension⟩ →
      extension.attach_callback = some callback →
      (∀ e, AttachCall.set_error e ∉ callback) → AttachCall.set_duck_catalog ∉ callback →
      (CStorageExtension.AttachCallback cast storage_info context db name attach_info
          options).result
        = .error (.InvalidInputException "Attach callback did not produce a catalog")) ∧
    (CStorageExtension.AttachCallback cast storage_info context db name attach_info
        options).result ≠ .ok none := by
  constructor
  · intro extension callback hsi hset herr hcat
    subst hsi
    have hs := runAttachCallback_no_error cast .live callback
      (CAttachFunctionInfo.construct (some ⟨extension⟩) context db name attach_info options
        extension) herr
    have hc := runAttachCallback_no_catalog cast .live callback
      (CAttachFunctionInfo.construct (some ⟨extension⟩) context db name attach_info options
        extension) hcat
    simp only [CStorageExtension.AttachCallback, CStorageExtension.GetExtension, hset, hs.1, hc]
    simp [CAttachFunctionInfo.construct]
  · cases storage_info with
    | none => simp [CStorageExtension.AttachCallback, CStorageExtension.GetExtension]
    | some si =>
      simp only [CStorageExtension.AttachCallback, CStorageExtension.GetExtension]
      cases hset : si.extension.attach_callback with
      | none => simp
      | some callback =>
        simp only
        split
        · simp
        · split
          · simp
          · rename_i _ hnone
            intro h
            injection h with h
            simp [h] at hnone

/-- Witness of C4: a callback that only reads the name, the path and an option. -/
theorem AttachCallback_no_catalog_witness :
    (CStorageExtension.AttachCallback exampleCast
        (some ⟨{ attach_callback := some [.get_name, .get_path,
          .get_option_varchar (some "custom") .live] }⟩) ⟨0⟩ ⟨1⟩ "capi_ext" exampleAttachInfo
        exampleOptions).result
      = .error (.InvalidInputException "Attach callback did not produce a catalog") :=
  (AttachCallback_no_catalog exampleCast
    (some ⟨{ attach_callback := some [.get_name, .get_path,
      .get_option_varchar (some "custom") .live] }⟩) ⟨0⟩ ⟨1⟩ "capi_ext" exampleAttachInfo
    exampleOptions).1 _ _ rfl rfl (by simp) (by simp)

/-- C5: when the entry has an attach callback that never calls the error setter and calls
the produce-default-catalog operation at least once, whatever it reads in between, the
attach dispatch succeeds and returns the built-in catalog bound to the database handle
passed to the dispatch. -/
theorem AttachCallback_success {V D : Type} (cast : DefaultCast V D)
    (extension : CStorageExtension) (context : ClientContext) (db : AttachedDatabase)
    (name : String) (attach_info : AttachInfo V) (options : AttachOptions V)
    (callback : List AttachCall)
    (hset : extension.attach_callback = some callback)
    (herr : ∀ e, AttachCall.set_error e ∉ callback)
    (hcat : AttachCall.set_duck_catalog ∈ callback) :
    (CStorageExtension.AttachCallback cast (some ⟨extension⟩) context db name attach_info
        options).result = .ok (some (.DuckCatalog db)) := by
  have hs := runAttachCallback_no_error cast .live callback
    (CAttachFunctionInfo.construct (some ⟨extension⟩) context db name attach_info options
      extension) herr
  have hc := runAttachCallback_catalog_mem cast callback
    (CAttachFunctionInfo.construct (some ⟨extension⟩) context db name attach_info options
      extension) hcat
  simp only [CStorageExtension.AttachCallback, CStorageExtension.GetExtension, hset, hs.1, hc]
  simp [CAttachFunctionInfo.construct]

/-- Witness of C5: the attach callback of the test, on the options of the test statement. -/
theorem AttachCallback_success_witness :
    (CStorageExtension.AttachCallback exampleCast
        (some ⟨{ attach_callback := some (StorageAttachCallback (some ":memory:")) }⟩)
        ⟨0⟩ ⟨1⟩ "capi_ext" exampleAttachInfo exampleOptions).result
      = .ok (some (.DuckCatalog ⟨1⟩)) :=
  AttachCallback_success exampleCast
    { attach_callback := some (StorageAttachCallback (some ":memory:")) }
    ⟨0⟩ ⟨1⟩ "capi_ext" exampleAttachInfo exampleOptions (StorageAttachCallback (some ":memory:"))
    rfl (by simp [StorageAttachCallback]) (by simp [StorageAttachCallback])

/-! ### Registration and dispatch on unset slots -/

theorem DBConfig.find_assign (m : List (String × CStorageExtension)) (type : String)
    (ext : CStorageExtension) :
    OptionMap.find (DBConfig.assign m type ext).1 type = some ext := by
  induction m with
  | nil => simp [DBConfig.assign, OptionMap.find]
  | cons entry rest ih =>
    obtain ⟨k, old⟩ := entry
    by_cases hk : k = type
    · simp [DBConfig.assign, OptionMap.find, hk]
    · simp [DBConfig.assign, OptionMap.find, hk, ih]

theorem transactionExec_frame (h : Handle) (c : TransactionCall) (mem : CTransactionInfo) :
    (c.exec h mem).db = mem.db ∧ (c.exec h mem).catalog = mem.catalog ∧
    (c.exec h mem).storage_info = mem.storage_info ∧
    (c.exec h mem).extension = mem.extension := by
  cases c <;> cases h <;>
    simp [TransactionCall.exec, duckdb_transaction_info_set_duck_transaction_manager,
      duckdb_transaction_info_set_error, duckdb_transaction_info_get_extra_info,
      GetTransactionInfo]

theorem transactionExec_success_of_ne (h : Handle) (c : TransactionCall)
    (mem : CTransactionInfo) (hc : ∀ e, c ≠ .set_error e) :
    (c.exec h mem).success = mem.success ∧ (c.exec h mem).error = mem.error := by
  cases c <;> cases h <;>
    simp_all [TransactionCall.exec, duckdb_transaction_info_set_duck_transaction_manager,
      duckdb_transaction_info_set_error, duckdb_transaction_info_get_extra_info,
      GetTransactionInfo]

theorem transactionExec_success_false (h : Handle) (c : TransactionCall)
    (mem : CTransactionInfo) (hs : mem.success = false) : (c.exec h mem).success = false := by
  cases c <;> cases h <;>
    simp [TransactionCall.exec, duckdb_transaction_info_set_duck_transaction_manager,
      duckdb_transaction_info_set_error, duckdb_transaction_info_get_extra_info,
      GetTransactionInfo, hs]

theorem transactionExec_set_error (e : Option String) (mem : CTransactionInfo) :
    ((TransactionCall.set_error e).exec .live mem).success = false ∧
    ((TransactionCall.set_error e).exec .live mem).error = e.getD "" := by
  cases e <;> simp [TransactionCall.exec, duckdb_transaction_info_set_error, GetTransactionInfo]

theorem transactionExec_manager_of_ne (h : Handle) (c : TransactionCall)
    (mem : CTransactionInfo) (hc : c ≠ .set_duck_transaction_manager) :
    (c.exec h mem).transaction_manager = mem.transaction_manager := by
  cases c <;> cases h <;>
    simp_all [TransactionCall.exec, duckdb_transaction_info_set_duck_transaction_manager,
      duckdb_transaction_info_set_error, duckdb_transaction_info_get_extra_info,
      GetTransactionInfo]

theorem transactionExec_manager_keep (h : Handle) (c : TransactionCall)
    (mem : CTransactionInfo)
    (hm : mem.transaction_manager = some (.DuckTransactionManager mem.db)) :
    (c.exec h mem).transaction_manager = some (.DuckTransactionManager mem.db) := by
  cases c <;> cases h <;>
    simp [TransactionCall.exec, duckdb_transaction_info_set_duck_transaction_manager,
      duckdb_transaction_info_set_error, duckdb_transaction_info_get_extra_info,
      GetTransactionInfo, hm]

theorem runTransactionCallback_append (h : Handle) (a b : List TransactionCall)
    (mem : CTransactionInfo) :
    runTransactionCallback h (a ++ b) mem
      = runTransactionCallback h b (runTransactionCallback h a mem) := by
  induction a generalizing mem with
  | nil => rfl
  | cons c a ih => simp [runTransactionCallback, ih]

theorem runTransactionCallback_frame (h : Handle) (cb : List TransactionCall)
    (mem : CTransactionInfo) :
    (runTransactionCallback h cb mem).db = mem.db ∧
    (runTransactionCallback h cb mem).catalog = mem.catalog ∧
    (runTransactionCallback h cb mem).storage_info = mem.storage_info ∧
    (runTransactionCallback h cb mem).extension = mem.extension := by
  induction cb generalizing mem with
  | nil => simp [runTransactionCallback]
  | cons c cb ih =>
    have hf := transactionExec_frame h c mem
    have := ih (c.exec h mem)
    simp only [runTransactionCallback]
    exact ⟨this.1.trans hf.1, this.2.1.trans hf.2.1, this.2.2.1.trans hf.2.2.1,
      this.2.2.2.trans hf.2.2.2⟩

theorem runTransactionCallback_success_false (h : Handle) (cb : List TransactionCall)
    (mem : CTransactionInfo) (hs : mem.success = false) :
    (runTransactionCallback h cb mem).success = false := by
  induction cb generalizing mem with
  | nil => simpa [runTransactionCallback] using hs
  | cons c cb ih => exact ih _ (transactionExec_success_false h c mem hs)

theorem runTransactionCallback_no_error (h : Handle) (cb : List TransactionCall)
    (mem : CTransactionInfo) (hcb : ∀ e, TransactionCall.set_error e ∉ cb) :
    (runTransactionCallback h cb mem).success = mem.success ∧
    (runTransactionCallback h cb mem).error = mem.error := by
  induction cb generalizing mem with
  | nil => simp [runTransactionCallback]
  | cons c cb ih =>
    have hc : ∀ e, c ≠ .set_error e := fun e he => hcb e (by simp [he])
    have hrest : ∀ e, TransactionCall.set_error e ∉ cb := fun e he => hcb e (by simp [he])
    have h1 := transactionExec_success_of_ne h c mem hc
    have h2 := ih (c.exec h mem) hrest
    simp only [runTransactionCallback]
    exact ⟨h2.1.trans h1.1, h2.2.trans h1.2⟩

theorem runTransactionCallback_error_last (before after : List TransactionCall)
    (mem : CTransactionInfo) (e : Option String)
    (hafter : ∀ e2, TransactionCall.set_error e2 ∉ after) :
    (runTransactionCallback .live (before ++ .set_error e :: after) mem).success = false ∧
    (runTransactionCallback .live (before ++ .set_error e :: after) mem).error = e.getD "" := by
  rw [runTransactionCallback_append]
  simp only [runTransactionCallback]
  have h1 := transactionExec_set_error e (runTransactionCallback .live before mem)
  have h2 := runTransactionCallback_no_error .live after
    ((TransactionCall.set_error e).exec .live (runTransactionCallback .live before mem)) hafter
  exact ⟨h2.1.trans h1.1, h2.2.trans h1.2⟩

theorem runTransactionCallback_no_manager (h : Handle) (cb : List TransactionCall)
    (mem : CTransactionInfo) (hcb : TransactionCall.set_duck_transaction_manager ∉ cb) :
    (runTransactionCallback h cb mem).transaction_manager = mem.transaction_manager := by
  induction cb generalizing mem with
  | nil => simp [runTransactionCallback]
  | cons c cb ih =>
    have hc : c ≠ .set_duck_transaction_manager := fun he => hcb (by simp [he])
    have hrest : TransactionCall.set_duck_transaction_manager ∉ cb :=
      fun he => hcb (by simp [he])
    simp only [runTransactionCallback]
    rw [ih _ hrest, transactionExec_manager_of_ne h c mem hc]

theorem runTransactionCallback_manager_keep (h : Handle) (cb : List TransactionCall)
    (mem : CTransactionInfo)
    (hm : mem.transaction_manager = some (.DuckTransactionManager mem.db)) :
    (runTransactionCallback h cb mem).transaction_manager
      = some (.DuckTransactionManager mem.db) := by
  induction cb generalizing mem with
  | nil => simpa [runTransactionCallback] using hm
  | cons c cb ih =>
    have hdb := (transactionExec_frame h c mem).1
    have := ih (c.exec h mem) (by rw [hdb]; exact transactionExec_manager_keep h c mem hm)
    simp only [runTransactionCallback]
    rw [this, hdb]

theorem runTransactionCallback_manager_mem (cb : List TransactionCall) (mem : CTransactionInfo)
    (hcb : TransactionCall.set_duck_transaction_manager ∈ cb) :
    (runTransactionCallback .live cb mem).transaction_manager
      = some (.DuckTransactionManager mem.db) := by
  obtain ⟨before, after, rfl⟩ := List.append_of_mem hcb
  rw [runTransactionCallback_append]
  simp only [runTransactionCallback]
  have hdb1 := (runTransactionCallback_frame .live before mem).1
  have hdb2 := (transactionExec_frame .live .set_duck_transaction_manager
    (runTransactionCallback .live before mem)).1
  have hk := runTransactionCallback_manager_keep .live after
    (TransactionCall.set_duck_transaction_manager.exec .live
      (runTransactionCallback .live before mem))
    (by simp [TransactionCall.exec, duckdb_transaction_info_set_duck_transaction_manager,
      GetTransactionInfo])
  rw [hk, hdb2, hdb1]

/-- C7: the transaction-manager dispatch mirrors the attach dispatch.  For every entry: it
throws the configuration error when the transaction slot is unset, whatever the attach
slot holds; otherwise it throws the message of the last error-setter call when the
callback called the error setter; otherwise it throws the fixed message "Create
transaction manager callback did not produce a transaction manager" when the callback
produced no manager; otherwise it returns the built-in transaction manager bound to
the database handle.  And an entry without attach callback fails on the attach path
with the attach configuration error. -/
theorem CreateTransactionManagerCallback_cases {V D : Type} (cast : DefaultCast V D)
    (extension : CStorageExtension) (db : AttachedDatabase) (catalog : Catalog)
    (context : ClientContext) (name : String) (attach_info : AttachInfo V)
    (options : AttachOptions V) :
    (extension.create_transaction_manager_callback = none →
      (CStorageExtension.CreateTransactionManagerCallback (some ⟨extension⟩) db catalog).result
        = .error (.InvalidInputException
            "Create transaction manager callback was not set for storage extension")) ∧
    (∀ before after error,
      extension.create_transaction_manager_callback
        = some (before ++ TransactionCall.set_error error :: after) →
      (∀ e, TransactionCall.set_error e ∉ after) →
      (CStorageExtension.CreateTransactionManagerCallback (some ⟨extension⟩) db catalog).result
        = .error (.InvalidInputException (match error with
            | some text => text
            | none => ""))) ∧
    (∀ callback, extension.create_transaction_manager_callback = some callback →
      (∀ e, TransactionCall.set_error e ∉ callback) →
      TransactionCall.set_duck_transaction_manager ∉ callback →
      (CStorageExtension.CreateTransactionManagerCallback (some ⟨extension⟩) db catalog).result
        = .error (.InvalidInputException
            "Create transaction manager callback did not produce a transaction manager")) ∧
    (∀ callback, extension.create_transaction_manager_callback = some callback →
      (∀ e, TransactionCall.set_error e ∉ callback) →
      TransactionCall.set_duck_transaction_manager ∈ callback →
      (CStorageExtension.CreateTransactionManagerCallback (some ⟨extension⟩) db catalog).result
        = .ok (some (.DuckTransactionManager db))) ∧
    (extension.attach_callback = none →
      (CStorageExtension.AttachCallback cast (some ⟨extension⟩) context db name attach_info
          options).result
        = .error (.InvalidInputException "Attach callback was not set for storage extension")) := by
  refine ⟨?_, ?_, ?_, ?_, ?_⟩
  · intro hset
    simp [CStorageExtension.CreateTransactionManagerCallback, CStorageExtension.GetExtension,
      hset]
  · intro before after error hset hlast
    have hs := runTransactionCallback_error_last before after
      (CTransactionInfo.construct (some ⟨extension⟩) db catalog extension) error hlast
    simp only [CStorageExtension.CreateTransactionManagerCallback,
      CStorageExtension.GetExtension, hset, hs.1, hs.2]
    cases error <;> simp
  · intro callback hset herr hman
    have hs := runTransactionCallback_no_error .live callback
      (CTransactionInfo.construct (some ⟨extension⟩) db catalog extension) herr
    have hm := runTransactionCallback_no_manager .live callback
      (CTransactionInfo.construct (some ⟨extension⟩) db catalog extension) hman
    simp only [CStorageExtension.CreateTransactionManagerCallback,
      CStorageExtension.GetExtension, hset, hs.1, hm]
    simp [CTransactionInfo.construct]
  · intro callback hset herr hman
    have hs := runTransactionCallback_no_error .live callback
      (CTransactionInfo.construct (some ⟨extension⟩) db catalog extension) herr
    have hm := runTransactionCallback_manager_mem callback
      (CTransactionInfo.construct (some ⟨extension⟩) db catalog extension) hman
    simp only [CStorageExtension.CreateTransactionManagerCallback,
      CStorageExtension.GetExtension, hset, hs.1, hm]
    simp [CTransactionInfo.construct]
  · intro hset
    simp [CStorageExtension.AttachCallback, CStorageExtension.GetExtension, hset]

/-- Witness of C7: an entry holding only the transaction callback of the test fails on the
attach path with the configuration error and succeeds on the transaction path with the
default manager. -/
theorem CreateTransactionManagerCallback_cases_witness :
    (CStorageExtension.AttachCallback exampleCast
        (some ⟨{ create_transaction_manager_callback := some StorageTransactionCallback }⟩)
        ⟨0⟩ ⟨1⟩ "capi_ext" exampleAttachInfo exampleOptions).result
      = .error (.InvalidInputException "Attach callback was not set for storage extension") ∧
    (CStorageExtension.CreateTransactionManagerCallback
        (some ⟨{ create_transaction_manager_callback := some StorageTransactionCallback }⟩)
        ⟨1⟩ (.DuckCatalog ⟨1⟩)).result
      = .ok (some (.DuckTransactionManager ⟨1⟩)) :=
  ⟨(CreateTransactionManagerCallback_cases exampleCast
      { create_transaction_manager_callback := some StorageTransactionCallback }
      ⟨1⟩ (.DuckCatalog ⟨1⟩) ⟨0⟩ "capi_ext" exampleAttachInfo exampleOptions).2.2.2.2 rfl,
   (CreateTransactionManagerCallback_cases exampleCast
      { create_transaction_manager_callback := some StorageTransactionCallback }
      ⟨1⟩ (.DuckCatalog ⟨1⟩) ⟨0⟩ "capi_ext" exampleAttachInfo exampleOptions).2.2.2.1
      StorageTransactionCallback rfl (by simp [StorageTransactionCallback])
      (by simp [StorageTransactionCallback])⟩

/-! ### The success flag -/

/-- C8: the success flag of an attach context and of a transaction context starts true;
once it is false, no accessor call, through a live or a null handle, sets it back to
true, and so neither does any callback run; a later error-setter call stores its own
message (the empty text for a null message) while success stays false. -/
theorem success_flag_monotone {V D : Type} (cast : DefaultCast V D) :
    (∀ storage_info context db name (attach_info : AttachInfo V) options extension,
      (CAttachFunctionInfo.construct storage_info context db name attach_info options
        extension).success = true) ∧
    (∀ storage_info db catalog extension,
      (CTransactionInfo.construct storage_info db catalog extension).success = true) ∧
    (∀ (info : Handle) (call : AttachCall) (mem : CAttachFunctionInfo V),
      mem.success = false → (call.exec cast info mem).success = false) ∧
    (∀ (info : Handle) (call : TransactionCall) (mem : CTransactionInfo),
      mem.success = false → (call.exec info mem).success = false) ∧
    (∀ (info : Handle) (callback : List AttachCall) (mem : CAttachFunctionInfo V),
      mem.success = false → (runAttachCallback cast info callback mem).success = false) ∧
    (∀ (info : Handle) (callback : List TransactionCall) (mem : CTransactionInfo),
      mem.success = false → (runTransactionCallback info callback mem).success = false) ∧
    (∀ (error : Option String) (mem : CAttachFunctionInfo V), mem.success = false →
      (duckdb_attach_info_set_error .live error mem).success = false ∧
      (duckdb_attach_info_set_error .live error mem).error = error.getD "") ∧
    (∀ (error : Option String) (mem : CTransactionInfo), mem.success = false →
      (duckdb_transaction_info_set_error .live error mem).success = false ∧
      (duckdb_transaction_info_set_error .live error mem).error = error.getD "") := by
  refine ⟨?_, ?_, ?_, ?_, ?_, ?_, ?_, ?_⟩
  · intros
    rfl
  · intros
    rfl
  · intro info call mem hs
    exact attachExec_success_false cast info call mem hs
  · intro info call mem hs
    exact transactionExec_success_false info call mem hs
  · intro info callback mem hs
    exact runAttachCallback_success_false cast info callback mem hs
  · intro info callback mem hs
    exact runTransactionCallback_success_false info callback mem hs
  · intro error mem _
    cases error <;> simp [duckdb_attach_info_set_error, GetAttachInfo]
  · intro error mem _
    cases error <;> simp [duckdb_transaction_info_set_error, GetTransactionInfo]

/-- Witness of C8: after a first failure "first", a produce-default-catalog call and a second
error-setter call leave success false and the message "second". -/
theorem success_flag_monotone_witness :
    (duckdb_attach_info_set_error .live (some "second")
      (duckdb_attach_info_set_duck_catalog .live
        (duckdb_attach_info_set_error .live (some "first")
          (CAttachFunctionInfo.construct none ⟨0⟩ ⟨1⟩ "capi_ext" exampleAttachInfo
            exampleOptions {})))).success = false ∧
    (duckdb_attach_info_set_error .live (some "second")
      (duckdb_attach_info_set_duck_catalog .live
        (duckdb_attach_info_set_error .live (some "first")
          (CAttachFunctionInfo.construct none ⟨0⟩ ⟨1⟩ "capi_ext" exampleAttachInfo
            exampleOptions {})))).error = "second" :=
  (success_flag_monotone exampleCast).2.2.2.2.2.2.1 (some "second")
    (duckdb_attach_info_set_duck_catalog .live
      (duckdb_attach_info_set_error .live (some "first")
        (CAttachFunctionInfo.construct none ⟨0⟩ ⟨1⟩ "capi_ext" exampleAttachInfo
          exampleOptions {}))) rfl

/-! ### Extra-info and its destructor -/

/-- C9: setting extra-info a second time invokes the destructor given with the first one,
on the first pointer (the call logged is made of the first pair, not of the new one),
and invokes nothing when the first was set with a null destructor (or was the null
pointer, which is no extra-info); afterwards the entry holds exactly the new pointer and
the new destructor, its callback slots untouched.  The C API function does the same
through a live handle. -/
theorem SetExtraInfo_twice (extension : CStorageExtension) (p1 d1 p2 d2 : Option Nat) :
    (∀ p d, p1 = some p → d1 = some d →
      ((extension.SetExtraInfo p1 d1).1.SetExtraInfo p2 d2).2 = [⟨d, p⟩]) ∧
    (d1 = none → ((extension.SetExtraInfo p1 d1).1.SetExtraInfo p2 d2).2 = []) ∧
    (p1 = none → ((extension.SetExtraInfo p1 d1).1.SetExtraInfo p2 d2).2 = []) ∧
    ((extension.SetExtraInfo p1 d1).1.SetExtraInfo p2 d2).1
      = { extension with extra_info := p2, extra_info_delete := d2 } ∧
    duckdb_storage_extension_set_extra_info .live p2 d2
        (duckdb_storage_extension_set_extra_info .live p1 d1 ⟨some extension⟩).1
      = (⟨some { extension with extra_info := p2, extra_info_delete := d2 }⟩,
          ((extension.SetExtraInfo p1 d1).1.SetExtraInfo p2 d2).2) := by
  refine ⟨?_, ?_, ?_, ?_, ?_⟩
  · intro p d hp hd
    simp [CStorageExtension.SetExtraInfo, hp, hd]
  · intro hd
    cases p1 <;> simp [CStorageExtension.SetExtraInfo, hd]
  · intro hp
    simp [CStorageExtension.SetExtraInfo, hp]
  · simp [CStorageExtension.SetExtraInfo]
  · simp [duckdb_storage_extension_set_extra_info, GetExtension, CStorageExtension.SetExtraInfo]

/-- Witness of C9: replacing pointer 100 with destructor 7 by pointer 200 with destructor 8
calls destructor 7 on 100; replacing the state of the test (pointer 100, null
destructor) calls nothing. -/
theorem SetExtraInfo_twice_witness :
    ((({} : CStorageExtension).SetExtraInfo (some 100) (some 7)).1.SetExtraInfo (some 200)
      (some 8)).2 = [⟨7, 100⟩] ∧
    ((({} : CStorageExtension).SetExtraInfo (some 100) none).1.SetExtraInfo (some 200)
      (some 8)).2 = [] :=
  ⟨(SetExtraInfo_twice {} (some 100) (some 7) (some 200) (some 8)).1 100 7 rfl rfl,
   (SetExtraInfo_twice {} (some 100) none (some 200) (some 8)).2.1 rfl⟩

theorem CStorageExtension.destroy_set (extension : CStorageExtension) (p d : Option Nat) :
    ({ extension with extra_info := p, extra_info_delete := d } : CStorageExtension).destroy
      = (owedCall (p, d)).toList := by
  cases p <;> cases d <;> simp [CStorageExtension.destroy, owedCall]

theorem setExtraInfoRun_calls (sets : List (Option Nat × Option Nat))
    (extension : CStorageExtension) :
    ∃ last, (setExtraInfoRun sets ⟨some extension⟩).1 = ⟨some last⟩ ∧
      (setExtraInfoRun sets ⟨some extension⟩).2 ++ last.destroy
        = extension.destroy ++ sets.filterMap owedCall := by
  induction sets generalizing extension with
  | nil => exact ⟨extension, rfl, by simp [setExtraInfoRun]⟩
  | cons set rest ih =>
    obtain ⟨p, d⟩ := set
    obtain ⟨last, h1, h2⟩ := ih { extension with extra_info := p, extra_info_delete := d }
    refine ⟨last, ?_, ?_⟩
    · simpa [setExtraInfoRun, duckdb_storage_extension_set_extra_info, GetExtension,
        CStorageExtension.SetExtraInfo] using h1
    · have hrun : (setExtraInfoRun ((p, d) :: rest) ⟨some extension⟩).2
          = extension.destroy ++ (setExtraInfoRun rest
              ⟨some { extension with extra_info := p, extra_info_delete := d }⟩).2 := by
        simp [setExtraInfoRun, duckdb_storage_extension_set_extra_info, GetExtension,
          CStorageExtension.SetExtraInfo, CStorageExtension.destroy]
      rw [hrun, List.append_assoc, h2, CStorageExtension.destroy_set extension p d]
      cases hc : owedCall (p, d) <;> simp [List.filterMap_cons, hc]

theorem DBConfig.assign_count (m : List (String × CStorageExtension)) (type : String)
    (ext : CStorageExtension) (c : DeleteCall) :
    ((DBConfig.assign m type ext).2
        ++ ((DBConfig.assign m type ext).1.map (fun entry => entry.2.destroy)).flatten).count c
      = ((m.map (fun entry => entry.2.destroy)).flatten).count c + ext.destroy.count c := by
  induction m with
  | nil => simp [DBConfig.assign]
  | cons entry rest ih =>
    obtain ⟨k, old⟩ := entry
    by_cases hk : k = type
    · simp [DBConfig.assign, hk, List.count_append]
      omega
    · simp only [DBConfig.assign, hk, if_false, List.map_cons, List.flatten_cons,
        List.count_append] at ih ⊢
      omega

theorem owedCall_count (sets : List (Option Nat × Option Nat)) (p d : Nat) :
    (sets.filterMap owedCall).count ⟨d, p⟩ = sets.count (some p, some d) := by
  induction sets with
  | nil => rfl
  | cons set rest ih =>
    obtain ⟨p2, d2⟩ := set
    cases p2 <;> cases d2 <;>
      simp [List.filterMap_cons, owedCall, List.count_cons, ih, and_comm]

theorem count_pair_of_nodup (sets : List (Option Nat × Option Nat)) (a : Option Nat × Option Nat)
    (hnodup : sets.Nodup) (hmem : a ∈ sets) : sets.count a = 1 := by
  induction sets with
  | nil => simp at hmem
  | cons b rest ih =>
    rw [List.nodup_cons] at hnodup
    by_cases hab : b = a
    · subst hab
      simp [List.count_cons, List.count_eq_zero_of_not_mem hnodup.1]
    · have hrest : a ∈ rest := by
        rcases List.mem_cons.mp hmem with h | h
        · exact absurd h.symm hab
        · exact h
      simp [List.count_cons, hab, ih hnodup.2 hrest]

/-- Counterexample to C10 as stated: it is not true that for every sequence of set_extra_info
calls the destructor supplied with an extra-info is invoked exactly once on it; when the
same pointer is set twice with the same destructor, the destructor is invoked on it
twice, at the replacement and again at the destruction of the entry. -/
theorem extra_info_set_twice_destroyed_twice :
    ¬ ∀ (sets : List (Option Nat × Option Nat)) (p d : Nat), (some p, some d) ∈ sets →
        (discardedEntryCalls sets duckdb_create_storage_extension.2).count ⟨d, p⟩ = 1 := by
  intro h
  have h2 := h [(some 100, some 7), (some 100, some 7)] 100 7 (by simp)
  revert h2
  decide

/-- C10, amended: over the whole life of an entry (any run of set_extra_info calls followed by
the destruction of the entry) the destructor calls made are exactly, in order, one call
of the destructor on its extra-info for the extra-info the entry held at the start and
for each set_extra_info call, and none for a call with a null pointer or a null
destructor; this holds when the entry is discarded before registration and, up to the
calls owed to the other entries of the registry, when it is registered and destroyed
with the registry or discarded after a failed registration.  So for a new entry the
number of calls of a destructor on an extra-info is the number of set_extra_info calls
that supplied that pair: exactly one when no pair is set twice, none for a pair never
set. -/
theorem extra_info_destructor_per_set (extension : CStorageExtension)
    (sets : List (Option Nat × Option Nat)) (type : String) (db_config : DBConfig)
    (assign_throws : Bool) :
    discardedEntryCalls sets ⟨some extension⟩
      = extension.destroy ++ sets.filterMap owedCall ∧
    (∀ call, (registeredEntryCalls sets type db_config assign_throws ⟨some extension⟩).count call
      = db_config.destroy.count call
        + (extension.destroy ++ sets.filterMap owedCall).count call) ∧
    (∀ p d, (discardedEntryCalls sets duckdb_create_storage_extension.2).count ⟨d, p⟩
      = sets.count (some p, some d)) ∧
    (∀ p d, (registeredEntryCalls sets type ⟨[]⟩ assign_throws
        duckdb_create_storage_extension.2).count ⟨d, p⟩
      = sets.count (some p, some d)) ∧
    (sets.Nodup → ∀ p d, (some p, some d) ∈ sets →
      (discardedEntryCalls sets duckdb_create_storage_extension.2).count ⟨d, p⟩ = 1) ∧
    (∀ p d, (some p, some d) ∉ sets →
      (discardedEntryCalls sets duckdb_create_storage_extension.2).count ⟨d, p⟩ = 0) := by
  have hdiscard : ∀ ext : CStorageExtension, discardedEntryCalls sets ⟨some ext⟩
      = ext.destroy ++ sets.filterMap owedCall := by
    intro ext
    obtain ⟨last, h1, h2⟩ := setExtraInfoRun_calls sets ext
    simp only [discardedEntryCalls, h1, duckdb_destroy_storage_extension]
    exact h2
  have hregister : ∀ (ext : CStorageExtension) (cfg : DBConfig) (call : DeleteCall),
      (registeredEntryCalls sets type cfg assign_throws ⟨some ext⟩).count call
        = cfg.destroy.count call + (ext.destroy ++ sets.filterMap owedCall).count call := by
    intro ext cfg call
    obtain ⟨last, h1, h2⟩ := setExtraInfoRun_calls sets ext
    have h3 := DBConfig.assign_count cfg.storage_extensions type last call
    cases assign_throws with
    | true =>
      simp only [registeredEntryCalls, h1, duckdb_config_add_storage_extension,
        duckdb_destroy_storage_extension, if_true, List.append_nil, List.append_assoc]
      rw [← List.append_assoc, h2]
      simp only [List.count_append]
      omega
    | false =>
      simp only [registeredEntryCalls, h1, duckdb_config_add_storage_extension, DBConfig.destroy,
        List.append_assoc, List.nil_append, Bool.false_eq_true, if_false]
      rw [List.count_append, h3, ← h2, List.count_append]
      omega
  have hcount : ∀ p d, (discardedEntryCalls sets duckdb_create_storage_extension.2).count ⟨d, p⟩
      = sets.count (some p, some d) := by
    intro p d
    simp only [duckdb_create_storage_extension]
    rw [hdiscard]
    simp [CStorageExtension.destroy, owedCall_count]
  refine ⟨hdiscard extension, hregister extension db_config, hcount, ?_, ?_, ?_⟩
  · intro p d
    simp only [duckdb_create_storage_extension]
    rw [hregister]
    simp [CStorageExtension.destroy, DBConfig.destroy, owedCall_count]
  · intro hnodup p d hmem
    rw [hcount]
    exact count_pair_of_nodup sets _ hnodup hmem
  · intro p d hmem
    rw [hcount]
    exact List.count_eq_zero_of_not_mem hmem

/-- Witness of C10 amended: a new entry given pointer 100 with destructor 7, then pointer 200
with no destructor, then pointer 300 with destructor 9, and discarded: destructor 7 runs
once on 100 and destructor 9 once on 300. -/
theorem extra_info_destructor_per_set_witness :
    discardedEntryCalls [(some 100, some 7), (some 200, none), (some 300, some 9)]
        ⟨some {}⟩ = [⟨7, 100⟩, ⟨9, 300⟩] ∧
    (discardedEntryCalls [(some 100, some 7), (some 200, none), (some 300, some 9)]
        duckdb_create_storage_extension.2).count ⟨7, 100⟩ = 1 :=
  ⟨(extra_info_destructor_per_set {} [(some 100, some 7), (some 200, none), (some 300, some 9)]
      "cstorage" ⟨[]⟩ false).1,
   (extra_info_destructor_per_set {} [(some 100, some 7), (some 200, none), (some 300, some 9)]
      "cstorage" ⟨[]⟩ false).2.2.2.2.1 (by decide) 100 7 (by decide)⟩

/-! ### Registration -/

/-- Counterexample to C11 as stated, on both sides: it is not true that registration reports
an error whenever the type name is empty (with a live registry and a live entry the
empty name "" is registered with success), and it is not true that it returns success
in every case where registry, type name and entry are valid (when the insertion into
the registry throws it returns DuckDBError). -/
theorem add_storage_extension_empty_type :
    (¬ ∀ (config : Handle) (type : Option String) (extension : Handle) (db_config : DBConfig)
        (wrapper : CStorageExtensionWrapper) (assign_throws : Bool),
        (config = .null ∨ type = none ∨ type = some "" ∨ extension = .null
          ∨ wrapper.extension = none) →
        (duckdb_config_add_storage_extension config type extension db_config wrapper
            assign_throws).state = .DuckDBError ∧
          (duckdb_config_add_storage_extension config type extension db_config wrapper
            assign_throws).db_config = db_config) ∧
    (¬ ∀ (name : String) (entry : CStorageExtension) (db_config : DBConfig)
        (assign_throws : Bool), name ≠ "" →
        (duckdb_config_add_storage_extension .live (some name) .live db_config ⟨some entry⟩
          assign_throws).state = .DuckDBSuccess) := by
  constructor
  · intro h
    have h2 := (h .live (some "") .live ⟨[]⟩ ⟨some {}⟩ false (Or.inr (Or.inr (Or.inl rfl)))).1
    simp [duckdb_config_add_storage_extension] at h2
  · intro h
    have h2 := h "cstorage" {} ⟨[]⟩ true (by decide)
    simp [duckdb_config_add_storage_extension] at h2

/-- C11, amended: registration returns DuckDBError, leaving the registry and the wrapper as
they were and calling no destructor, whenever the registry handle is null, the type
name is null, the entry handle is null, the wrapper holds no entry, or the insertion
into the registry throws; in every other case (an empty type name included) it returns
DuckDBSuccess, the registry maps the type name to the entry, and the wrapper is
deleted, so that the handle holds no entry.  A wrapper that holds no entry is a state
the guard provides for and no call of the API produces: the wrapper made by
`duckdb_create_storage_extension` holds an entry and the setters keep it. -/
theorem add_storage_extension_outcome (config : Handle) (type : Option String)
    (extension : Handle) (db_config : DBConfig) (wrapper : CStorageExtensionWrapper)
    (assign_throws : Bool) :
    ((config = .null ∨ type = none ∨ extension = .null ∨ wrapper.extension = none
        ∨ assign_throws = true) →
      duckdb_config_add_storage_extension config type extension db_config wrapper assign_throws
        = ⟨.DuckDBError, db_config, some wrapper, []⟩) ∧
    (∀ name entry, config = .live → type = some name → extension = .live →
      wrapper.extension = some entry → assign_throws = false →
      (duckdb_config_add_storage_extension config type extension db_config wrapper
          assign_throws).state = .DuckDBSuccess ∧
        OptionMap.find (duckdb_config_add_storage_extension config type extension db_config
          wrapper assign_throws).db_config.storage_extensions name = some entry ∧
        (duckdb_config_add_storage_extension config type extension db_config wrapper
          assign_throws).wrapper = none) ∧
    (duckdb_create_storage_extension.2.extension.isSome = true ∧
      ∀ (handle : Handle) (p d : Option Nat) (attach : Option (List AttachCall))
        (create_transaction : Option (List TransactionCall)),
        wrapper.extension.isSome = true →
        (duckdb_storage_extension_set_extra_info handle p d wrapper).1.extension.isSome = true ∧
        (duckdb_storage_extension_set_attach handle attach wrapper).extension.isSome = true ∧
        (duckdb_storage_extension_set_transaction handle create_transaction
          wrapper).extension.isSome = true) := by
  refine ⟨?_, ?_, rfl, ?_⟩
  · intro h
    cases config <;> cases type <;> cases extension <;> cases assign_throws <;>
      cases hw : wrapper.extension <;>
      simp_all [duckdb_config_add_storage_extension]
  · intro name entry hc ht he hw hthrow
    subst hc ht he hthrow
    simp only [duckdb_config_add_storage_extension, hw, Bool.false_eq_true, if_false]
    exact ⟨trivial, DBConfig.find_assign _ _ _, trivial⟩
  · intro handle p d attach create_transaction hw
    obtain ⟨held⟩ := wrapper
    cases held with
    | none => simp at hw
    | some entry =>
      cases handle <;> cases attach <;> cases create_transaction <;>
        simp [duckdb_storage_extension_set_extra_info, duckdb_storage_extension_set_attach,
          duckdb_storage_extension_set_transaction, GetExtension]

/-- Witness of C11 amended: a null type name is refused and nothing changes; an insertion
that throws is reported and nothing changes; the entry of the test is registered under
"cstorage" and the wrapper is gone. -/
theorem add_storage_extension_outcome_witness :
    duckdb_config_add_storage_extension .live none .live ⟨[]⟩ ⟨some {}⟩ false
      = ⟨.DuckDBError, ⟨[]⟩, some ⟨some {}⟩, []⟩ ∧
    duckdb_config_add_storage_extension .live (some "cstorage") .live ⟨[]⟩ ⟨some {}⟩ true
      = ⟨.DuckDBError, ⟨[]⟩, some ⟨some {}⟩, []⟩ ∧
    ((duckdb_config_add_storage_extension .live (some "cstorage") .live ⟨[]⟩ ⟨some {}⟩
          false).state = .DuckDBSuccess ∧
      OptionMap.find (duckdb_config_add_storage_extension .live (some "cstorage") .live ⟨[]⟩
        ⟨some {}⟩ false).db_config.storage_extensions "cstorage" = some {} ∧
      (duckdb_config_add_storage_extension .live (some "cstorage") .live ⟨[]⟩
        ⟨some {}⟩ false).wrapper = none) :=
  ⟨(add_storage_extension_outcome .live none .live ⟨[]⟩ ⟨some {}⟩ false).1
      (Or.inr (Or.inl rfl)),
   (add_storage_extension_outcome .live (some "cstorage") .live ⟨[]⟩ ⟨some {}⟩ true).1
      (Or.inr (Or.inr (Or.inr (Or.inr rfl)))),
   (add_storage_extension_outcome .live (some "cstorage") .live ⟨[]⟩ ⟨some {}⟩ false).2.1
      "cstorage" {} rfl rfl rfl rfl rfl⟩

/-! ### Callback slots -/

/-- C12: set_attach_callback and set_transaction_callback with a null function leave the
wrapper, and so the callback in the slot, as they were; with a non-null function, on a
live handle whose wrapper holds an entry, they replace exactly their own slot and leave
the other slot, the extra-info and its destructor as they were; and calling either
twice with the same non-null function gives what calling it once gives. -/
theorem set_callback_slots (extension : Handle) (wrapper : CStorageExtensionWrapper)
    (attach : List AttachCall) (create_transaction : List TransactionCall) :
    duckdb_storage_extension_set_attach extension none wrapper = wrapper ∧
    duckdb_storage_extension_set_transaction extension none wrapper = wrapper ∧
    (∀ entry, wrapper.extension = some entry →
      duckdb_storage_extension_set_attach .live (some attach) wrapper
        = ⟨some ⟨some attach, entry.create_transaction_manager_callback, entry.extra_info,
            entry.extra_info_delete⟩⟩) ∧
    (∀ entry, wrapper.extension = some entry →
      duckdb_storage_extension_set_transaction .live (some create_transaction) wrapper
        = ⟨some ⟨entry.attach_callback, some create_transaction, entry.extra_info,
            entry.extra_info_delete⟩⟩) ∧
    duckdb_storage_extension_set_attach extension (some attach)
        (duckdb_storage_extension_set_attach extension (some attach) wrapper)
      = duckdb_storage_extension_set_attach extension (some attach) wrapper ∧
    duckdb_storage_extension_set_transaction extension (some create_transaction)
        (duckdb_storage_extension_set_transaction extension (some create_transaction) wrapper)
      = duckdb_storage_extension_set_transaction extension (some create_transaction) wrapper := by
  obtain ⟨held⟩ := wrapper
  refine ⟨?_, ?_, ?_, ?_, ?_, ?_⟩
  · cases extension <;> cases held <;> simp [duckdb_storage_extension_set_attach, GetExtension]
  · cases extension <;> cases held <;>
      simp [duckdb_storage_extension_set_transaction, GetExtension]
  · intro entry h
    simp only at h
    subst h
    simp [duckdb_storage_extension_set_attach, GetExtension]
  · intro entry h
    simp only at h
    subst h
    simp [duckdb_storage_extension_set_transaction, GetExtension]
  · cases extension <;> cases held <;> simp [duckdb_storage_extension_set_attach, GetExtension]
  · cases extension <;> cases held <;>
      simp [duckdb_storage_extension_set_transaction, GetExtension]

/-- Witness of C12: on an entry holding the attach callback of the test and extra-info 100,
a null attach function keeps the callback, and setting the transaction callback changes
that slot only. -/
theorem set_callback_slots_witness :
    duckdb_storage_extension_set_attach .live none
        ⟨some ⟨some FailingAttachCallback, none, some 100, none⟩⟩
      = ⟨some ⟨some FailingAttachCallback, none, some 100, none⟩⟩ ∧
    duckdb_storage_extension_set_transaction .live (some StorageTransactionCallback)
        ⟨some ⟨some FailingAttachCallback, none, some 100, none⟩⟩
      = ⟨some ⟨some FailingAttachCallback, some StorageTransactionCallback, some 100, none⟩⟩ :=
  ⟨(set_callback_slots .live ⟨some ⟨some FailingAttachCallback, none, some 100, none⟩⟩
      FailingAttachCallback StorageTransactionCallback).1,
   (set_callback_slots .live ⟨some ⟨some FailingAttachCallback, none, some 100, none⟩⟩
      FailingAttachCallback StorageTransactionCallback).2.2.2.1 _ rfl⟩

/-! ### Typed option accessors -/

/-- C13: for a key contained in neither the call-site nor the declarative option mapping,
the text, boolean, integer and real accessors all return false, through any handle and
with any output pointer; they store nothing and leave the context, its success flag
included, as it was. -/
theorem typed_accessors_absent_key {V D : Type} (cast : DefaultCast V D) (info : Handle)
    (key : String) (out_value : Handle) (mem : CAttachFunctionInfo V)
    (hcall : OptionMap.find mem.options.options key = none)
    (hdecl : OptionMap.find mem.attach_info.options key = none) :
    ((duckdb_attach_info_get_option_varchar cast info (some key) out_value mem).ret = false ∧
      (duckdb_attach_info_get_option_varchar cast info (some key) out_value mem).out = none ∧
      (duckdb_attach_info_get_option_varchar cast info (some key) out_value mem).info = mem) ∧
    ((duckdb_attach_info_get_option_boolean cast info (some key) out_value mem).ret = false ∧
      (duckdb_attach_info_get_option_boolean cast info (some key) out_value mem).out = none ∧
      (duckdb_attach_info_get_option_boolean cast info (some key) out_value mem).info = mem) ∧
    ((duckdb_attach_info_get_option_bigint cast info (some key) out_value mem).ret = false ∧
      (duckdb_attach_info_get_option_bigint cast info (some key) out_value mem).out = none ∧
      (duckdb_attach_info_get_option_bigint cast info (some key) out_value mem).info = mem) ∧
    ((duckdb_attach_info_get_option_double cast info (some key) out_value mem).ret = false ∧
      (duckdb_attach_info_get_option_double cast info (some key) out_value mem).out = none ∧
      (duckdb_attach_info_get_option_double cast info (some key) out_value mem).info = mem) := by
  have hres : mem.GetOptionValue key = none := by
    simp [CAttachFunctionInfo.GetOptionValue, hcall, hdecl]
  cases info <;> cases out_value <;>
    simp [duckdb_attach_info_get_option_varchar, AttachInfoGetString,
      duckdb_attach_info_get_option_boolean, duckdb_attach_info_get_option_bigint,
      duckdb_attach_info_get_option_double, GetAttachInfo, hres]

/-- Witness of C13: the key "absent" on the options of the test statement. -/
theorem typed_accessors_absent_key_witness :
    (duckdb_attach_info_get_option_varchar exampleCast .live (some "absent") .live
      (CAttachFunctionInfo.construct none ⟨0⟩ ⟨1⟩ "capi_ext" exampleAttachInfo exampleOptions
        {})).ret = false ∧
    (duckdb_attach_info_get_option_double exampleCast .live (some "absent") .live
      (CAttachFunctionInfo.construct none ⟨0⟩ ⟨1⟩ "capi_ext" exampleAttachInfo exampleOptions
        {})).ret = false :=
  ⟨(typed_accessors_absent_key exampleCast .live "absent" .live
      (CAttachFunctionInfo.construct none ⟨0⟩ ⟨1⟩ "capi_ext" exampleAttachInfo exampleOptions {})
      (by decide) (by decide)).1.1,
   (typed_accessors_absent_key exampleCast .live "absent" .live
      (CAttachFunctionInfo.construct none ⟨0⟩ ⟨1⟩ "capi_ext" exampleAttachInfo exampleOptions {})
      (by decide) (by decide)).2.2.2.1⟩

/-- C15: the entry made by `duckdb_create_storage_extension` has a null extra-info; after
`set_extra_info(p, d)` on an entry, `get_extra_info` on the entry returns p, and so do
the extra-info accessors of every attach context and of every transaction context
built for that entry, at construction and after any accessor calls of a callback. -/
theorem extra_info_round_trip {V D : Type} (cast : DefaultCast V D) (entry : CStorageExtension)
    (p d : Option Nat) :
    duckdb_storage_extension_get_extra_info .live duckdb_create_storage_extension.2 = none ∧
    duckdb_storage_extension_get_extra_info .live
        (duckdb_storage_extension_set_extra_info .live p d ⟨some entry⟩).1 = p ∧
    (∀ storage_info context db name (attach_info : AttachInfo V) options
        (callback : List AttachCall),
      (duckdb_attach_info_get_extra_info .live
        (runAttachCallback cast .live callback
          (CAttachFunctionInfo.construct storage_info context db name attach_info options
            (entry.SetExtraInfo p d).1))).1 = p) ∧
    (∀ storage_info db catalog (callback : List TransactionCall),
      (duckdb_transaction_info_get_extra_info .live
        (runTransactionCallback .live callback
          (CTransactionInfo.construct storage_info db catalog (entry.SetExtraInfo p d).1))).1
        = p) := by
  refine ⟨rfl, ?_, ?_, ?_⟩
  · simp [duckdb_storage_extension_get_extra_info, duckdb_storage_extension_set_extra_info,
      GetExtension, CStorageExtension.SetExtraInfo, CStorageExtension.GetExtraInfo]
  · intro storage_info context db name attach_info options callback
    have hf := (runAttachCallback_frame cast .live callback
      (CAttachFunctionInfo.construct storage_info context db name attach_info options
        (entry.SetExtraInfo p d).1)).2.2.2.1
    simp only [duckdb_attach_info_get_extra_info, GetAttachInfo, hf]
    simp [CAttachFunctionInfo.construct, CStorageExtension.SetExtraInfo,
      CStorageExtension.GetExtraInfo]
  · intro storage_info db catalog callback
    have hf := (runTransactionCallback_frame .live callback
      (CTransactionInfo.construct storage_info db catalog (entry.SetExtraInfo p d).1)).2.2.2
    simp only [duckdb_transaction_info_get_extra_info, GetTransactionInfo, hf]
    simp [CTransactionInfo.construct, CStorageExtension.SetExtraInfo,
      CStorageExtension.GetExtraInfo]

/-- Witness of C15: pointer 100 set with a null destructor, as in the test, is what the
attach callback of the test reads back from its context. -/
theorem extra_info_round_trip_witness :
    duckdb_storage_extension_get_extra_info .live
        (duckdb_storage_extension_set_extra_info .live (some 100) none
          duckdb_create_storage_extension.2).1 = some 100 ∧
    (duckdb_attach_info_get_extra_info .live
      (runAttachCallback exampleCast .live []
        (CAttachFunctionInfo.construct none ⟨0⟩ ⟨1⟩ "capi_ext" exampleAttachInfo exampleOptions
          (({} : CStorageExtension).SetExtraInfo (some 100) none).1))).1 = some 100 :=
  ⟨(extra_info_round_trip exampleCast {} (some 100) none).2.1,
   (extra_info_round_trip exampleCast {} (some 100) none).2.2.1 none ⟨0⟩ ⟨1⟩ "capi_ext"
      exampleAttachInfo exampleOptions []⟩

/-! ### The catalog field -/

/-- C17: calling set_path with the value returned by get_path leaves the attach context as it
was, whatever path it holds and through a live or a null handle; get_path returns the
same path afterwards. -/
theorem set_path_of_get_path {V : Type} (info : Handle) (mem : CAttachFunctionInfo V) :
    duckdb_attach_info_set_path info (duckdb_attach_info_get_path info mem).1
        (duckdb_attach_info_get_path info mem).2 = mem ∧
    (duckdb_attach_info_get_path info
      (duckdb_attach_info_set_path info (duckdb_attach_info_get_path info mem).1
        (duckdb_attach_info_get_path info mem).2)).1 = (duckdb_attach_info_get_path info mem).1 := by
  have h : duckdb_attach_info_set_path info (duckdb_attach_info_get_path info mem).1
      (duckdb_attach_info_get_path info mem).2 = mem := by
    cases info <;> simp [duckdb_attach_info_set_path, duckdb_attach_info_get_path, GetAttachInfo]
  exact ⟨h, by rw [h]⟩

/-- Witness of C17: the path ":memory:" of the test statement, forwarded. -/
theorem set_path_of_get_path_witness :
    duckdb_attach_info_set_path .live (some ":memory:")
        (CAttachFunctionInfo.construct none ⟨0⟩ ⟨1⟩ "capi_ext" exampleAttachInfo exampleOptions {})
      = CAttachFunctionInfo.construct none ⟨0⟩ ⟨1⟩ "capi_ext" exampleAttachInfo exampleOptions {} :=
  (set_path_of_get_path .live
    (CAttachFunctionInfo.construct none ⟨0⟩ ⟨1⟩ "capi_ext" exampleAttachInfo exampleOptions {})).1

/-! ### The scratch list -/

/-- C18, the defect: two successful text lookups in a row on a context whose scratch list is
empty, the converted text being short enough for the small-string buffer and the
vector growing from capacity 0 to capacity 1 (as it does in libstdc++, libc++ and the
Microsoft library).  The first lookup stores a valid pointer to slot 0.  The second
lookup appends one entry and leaves the first entry at its position with its content,
but its `push_back` finds the vector full and moves it to a new block, so the pointer
returned by the first lookup no longer addresses the text: a lookup does invalidate a
previously returned value. -/
theorem text_lookup_pointer_dangles {V D : Type} (cast : DefaultCast V D) (layout : StdLayout)
    (key : String) (mem : CAttachFunctionInfo V) (value : V) (text : String)
    (hempty : mem.string_cache = [])
    (hvalue : mem.GetOptionValue key = some value)
    (htext : cast.VARCHAR value = some text)
    (hshort : text.utf8ByteSize ≤ layout.sso_capacity)
    (hgrow : layout.grow 0 = 1) :
    (duckdb_attach_info_get_option_varchar cast .live (some key) .live mem).ret = true ∧
    (duckdb_attach_info_get_option_varchar cast .live (some key) .live mem).out = some 0 ∧
    (duckdb_attach_info_get_option_varchar cast .live (some key) .live mem).info.string_cache
      = [text] ∧
    cstrValid layout 0
      (duckdb_attach_info_get_option_varchar cast .live (some key) .live
        mem).info.string_cache = true ∧
    (duckdb_attach_info_get_option_varchar cast .live (some key) .live
      (duckdb_attach_info_get_option_varchar cast .live (some key) .live mem).info).ret = true ∧
    (duckdb_attach_info_get_option_varchar cast .live (some key) .live
      (duckdb_attach_info_get_option_varchar cast .live (some key) .live mem).info).out
      = some 1 ∧
    (duckdb_attach_info_get_option_varchar cast .live (some key) .live
      (duckdb_attach_info_get_option_varchar cast .live (some key) .live
        mem).info).info.string_cache = [text, text] ∧
    cstrValid layout 0
      (duckdb_attach_info_get_option_varchar cast .live (some key) .live
        (duckdb_attach_info_get_option_varchar cast .live (some key) .live
          mem).info).info.string_cache = false := by
  have hvalue2 : ∀ cache : List String,
      ({ mem with string_cache := cache } : CAttachFunctionInfo V).GetOptionValue key
        = some value := by
    intro cache
    simpa [CAttachFunctionInfo.GetOptionValue] using hvalue
  have hshort2 : ¬ layout.sso_capacity < text.utf8ByteSize := by omega
  simp [duckdb_attach_info_get_option_varchar, AttachInfoGetString, GetAttachInfo, hvalue,
    htext, hempty, hvalue2, cstrValid, vectorBlock, vectorCapacity, hgrow, hshort2]

/-- Witness of C18, the failing input: the key "custom" of the test statement, whose text
"value" has 5 bytes, looked up twice under the layout of libstdc++. -/
theorem text_lookup_pointer_dangles_witness :
    cstrValid libstdcxxLayout 0
      (duckdb_attach_info_get_option_varchar exampleCast .live (some "custom") .live
        (CAttachFunctionInfo.construct none ⟨0⟩ ⟨1⟩ "capi_ext" exampleAttachInfo exampleOptions
          {})).info.string_cache = true ∧
    cstrValid libstdcxxLayout 0
      (duckdb_attach_info_get_option_varchar exampleCast .live (some "custom") .live
        (duckdb_attach_info_get_option_varchar exampleCast .live (some "custom") .live
          (CAttachFunctionInfo.construct none ⟨0⟩ ⟨1⟩ "capi_ext" exampleAttachInfo exampleOptions
            {})).info).info.string_cache = false :=
  ⟨(text_lookup_pointer_dangles exampleCast libstdcxxLayout "custom"
      (CAttachFunctionInfo.construct none ⟨0⟩ ⟨1⟩ "capi_ext" exampleAttachInfo exampleOptions {})
      (.text "value") "value" rfl rfl rfl (by decide) rfl).2.2.2.1,
   (text_lookup_pointer_dangles exampleCast libstdcxxLayout "custom"
      (CAttachFunctionInfo.construct none ⟨0⟩ ⟨1⟩ "capi_ext" exampleAttachInfo exampleOptions {})
      (.text "value") "value" rfl rfl rfl (by decide) rfl).2.2.2.2.2.2.2⟩

/-! ### Null handles -/

/-- C19: given a null handle, every accessor of the attach context and of the transaction
context leaves the context as it was and stores nothing: the name, path and extra-info
getters return null, the four typed option accessors return false, and set_path,
set_error, produce-default-catalog, produce-default-manager and the client-context
accessor change nothing. -/
theorem null_handle_accessors {V D : Type} (cast : DefaultCast V D)
    (mem : CAttachFunctionInfo V) (transaction : CTransactionInfo) (text key : Option String)
    (out : Handle) (alloc_fails : Bool) :
    duckdb_attach_info_get_name .null mem = (none, mem) ∧
    duckdb_attach_info_get_path .null mem = (none, mem) ∧
    duckdb_attach_info_get_extra_info .null mem = (none, mem) ∧
    duckdb_attach_info_set_path .null text mem = mem ∧
    duckdb_attach_info_set_error .null text mem = mem ∧
    duckdb_attach_info_set_duck_catalog .null mem = mem ∧
    duckdb_attach_info_get_client_context .null out alloc_fails mem = (none, mem) ∧
    duckdb_attach_info_get_option_varchar cast .null key out mem = ⟨false, none, mem⟩ ∧
    duckdb_attach_info_get_option_boolean cast .null key out mem = ⟨false, none, mem⟩ ∧
    duckdb_attach_info_get_option_bigint cast .null key out mem = ⟨false, none, mem⟩ ∧
    duckdb_attach_info_get_option_double cast .null key out mem = ⟨false, none, mem⟩ ∧
    duckdb_transaction_info_set_duck_transaction_manager .null transaction = transaction ∧
    duckdb_transaction_info_set_error .null text transaction = transaction ∧
    duckdb_transaction_info_get_extra_info .null transaction = (none, transaction) := by
  refine ⟨rfl, rfl, rfl, ?_, rfl, rfl, ?_, ?_, ?_, ?_, ?_, rfl, rfl, rfl⟩
  · simp [duckdb_attach_info_set_path, GetAttachInfo]
  · simp [duckdb_attach_info_get_client_context, GetAttachInfo]
  · simp [duckdb_attach_info_get_option_varchar, AttachInfoGetString, GetAttachInfo]
  · simp [duckdb_attach_info_get_option_boolean, GetAttachInfo]
  · simp [duckdb_attach_info_get_option_bigint, GetAttachInfo]
  · simp [duckdb_attach_info_get_option_double, GetAttachInfo]

/-! ### Frame of the typed option accessors -/

/-- C20: the boolean, integer and real accessors leave the whole attach context as it was,
whatever they return; the text accessor changes nothing but the scratch list, and
nothing at all when it returns absent; and an accessor that returns absent stores
nothing through the output pointer. -/
theorem typed_accessors_frame {V D : Type} (cast : DefaultCast V D) (info : Handle)
    (key : Option String) (out_value : Handle) (mem : CAttachFunctionInfo V) :
    (duckdb_attach_info_get_option_boolean cast info key out_value mem).info = mem ∧
    (duckdb_attach_info_get_option_bigint cast info key out_value mem).info = mem ∧
    (duckdb_attach_info_get_option_double cast info key out_value mem).info = mem ∧
    (duckdb_attach_info_get_option_varchar cast info key out_value mem).info
      = { mem with string_cache :=
            (duckdb_attach_info_get_option_varchar cast info key out_value mem).info.string_cache } ∧
    ((duckdb_attach_info_get_option_varchar cast info key out_value mem).ret = false →
      (duckdb_attach_info_get_option_varchar cast info key out_value mem).info = mem) ∧
    ((duckdb_attach_info_get_option_varchar cast info key out_value mem).ret = false →
      (duckdb_attach_info_get_option_varchar cast info key out_value mem).out = none) ∧
    ((duckdb_attach_info_get_option_boolean cast info key out_value mem).ret = false →
      (duckdb_attach_info_get_option_boolean cast info key out_value mem).out = none) ∧
    ((duckdb_attach_info_get_option_bigint cast info key out_value mem).ret = false →
      (duckdb_attach_info_get_option_bigint cast info key out_value mem).out = none) ∧
    ((duckdb_attach_info_get_option_double cast info key out_value mem).ret = false →
      (duckdb_attach_info_get_option_double cast info key out_value mem).out = none) := by
  refine ⟨?_, ?_, ?_, ?_, ?_, ?_, ?_, ?_, ?_⟩ <;>
    cases info <;> cases key <;> cases out_value <;>
    simp only [duckdb_attach_info_get_option_varchar, AttachInfoGetString,
      duckdb_attach_info_get_option_boolean, duckdb_attach_info_get_option_bigint,
      duckdb_attach_info_get_option_double, GetAttachInfo] <;>
    (repeat' split) <;> simp_all

/-- Witness of C20: on the context of the test, the boolean lookup of "flag" returns present
and the text lookup of "flag", whose conversion fails under the example cast, returns
absent; both leave the context as it was and the second stores nothing. -/
theorem typed_accessors_frame_witness :
    (duckdb_attach_info_get_option_boolean exampleCast .live (some "flag") .live
      (CAttachFunctionInfo.construct none ⟨0⟩ ⟨1⟩ "capi_ext" exampleAttachInfo exampleOptions
        {})).info
      = CAttachFunctionInfo.construct none ⟨0⟩ ⟨1⟩ "capi_ext" exampleAttachInfo exampleOptions {} ∧
    (duckdb_attach_info_get_option_varchar exampleCast .live (some "flag") .live
      (CAttachFunctionInfo.construct none ⟨0⟩ ⟨1⟩ "capi_ext" exampleAttachInfo exampleOptions
        {})).out = none :=
  ⟨(typed_accessors_frame exampleCast .live (some "flag") .live
      (CAttachFunctionInfo.construct none ⟨0⟩ ⟨1⟩ "capi_ext" exampleAttachInfo exampleOptions
        {})).1,
   (typed_accessors_frame exampleCast .live (some "flag") .live
      (CAttachFunctionInfo.construct none ⟨0⟩ ⟨1⟩ "capi_ext" exampleAttachInfo exampleOptions
        {})).2.2.2.2.2.1 rfl⟩

end AttachC
